import Mathlib

set_option maxRecDepth 10000
set_option maxHeartbeats 1000000

/-!
Verification of the brokerage-statement ingestion engine of FamilyAssetManager
(src/main/holdings-parser.ts, src/main/excel-import.ts, src/main/brokerage-parsers.ts).

The TypeScript code is shallowly embedded: spreadsheet cells become an inductive
`Cell` type, JS numbers become exact rationals `ℚ`, nullable results become
`Option`, and each source function is translated definition by definition.
File input/output (readFileSync, XLSX sheet extraction) is outside the model:
the grid-level entry points `parseHoldingsGrid` / `parseExcelGrid` embed the
bodies of `parseHoldingsFile` / `parseExcelFile` from the point where the
cell grid `data` has been extracted.
-/

/-- A spreadsheet cell value: a number, a string, or an absent/empty cell
(modelling the JS values `number`, `string`, and `null`/`undefined`). -/
inductive Cell where
  | num (q : ℚ)
  | str (s : String)
  | empty
  deriving DecidableEq, Repr

/-- JS truthiness for cell values: `null`/`undefined`, `0` and `""` are falsy. -/
def cellFalsy (c : Cell) : Bool :=
  match c with
  | Cell.empty => true
  | Cell.num q => q = 0
  | Cell.str s => s = ""

/-- Rendering of a numeric cell as text.  JS number-to-string formatting is
approximated: integers render as their decimal digits, other rationals as
`num/den`.  Every use of this rendering in the theorems below depends only on
the rendered text being nonempty, free of whitespace, and free of the Korean
marker words tested by the parsers, which holds for the JS rendering as well. -/
def numToStr (q : ℚ) : String :=
  if q.den = 1 then toString q.num else toString q.num ++ "/" ++ toString q.den

/-- `String(c)` at the call sites of the sources: every such site either guards
the cell with a truthiness test or a `|| ''` fallback, or is an `Array.join`
(which renders `null`/`undefined` as the empty string), so the absent cell maps
to `""`. -/
def jsString (c : Cell) : String :=
  match c with
  | Cell.num q => numToStr q
  | Cell.str s => s
  | Cell.empty => ""

/-- `String(c || '')`: falsy cells (including the number 0) render as `""`. -/
def cellStr (c : Cell) : String :=
  if cellFalsy c then "" else jsString c

/-- `String(c || d)` with a string default `d`. -/
def cellStrD (c : Cell) (d : String) : String :=
  if cellFalsy c then d else jsString c

/-- JS `x || d` for strings: the empty string is falsy. -/
def jsOrS (x d : String) : String :=
  if x = "" then d else x

/-- JS `x || d` for an optional string (absent and empty are both falsy). -/
def jsOrOpt (x : Option String) (d : String) : String :=
  match x with
  | some s => if s = "" then d else s
  | none => d

/-- `row[i]` for a possibly negative index: JS yields `undefined` outside the
array bounds (and at `row[-1]`). -/
def cellAt (row : List Cell) (i : Int) : Cell :=
  if i < 0 then Cell.empty else row.getD i.toNat Cell.empty

/-- Digits of a decimal literal folded into a natural number. -/
def digitsToNat (ds : List Char) : Nat :=
  ds.foldl (fun a c => a * 10 + (c.toNat - 48)) 0

/-- Longest leading run of decimal digits, and the remainder. -/
def spanDigits (cs : List Char) : List Char × List Char :=
  (cs.takeWhile Char.isDigit, cs.dropWhile Char.isDigit)

/-- Model of the JavaScript `parseFloat` builtin over exact rationals: leading
whitespace is skipped, then an optional sign, decimal digits with an optional
fraction and an optional exponent are read as a prefix of the text; `none`
models the `NaN` result (no digits at all).  The value
`sign * (intPart + fracPart / 10 ^ |fracPart|) * 10 ^ exponent` is assembled
as one exact fraction with `mkRat`.  The `Infinity` literal lies outside
the rational model and also maps to `none`; no theorem below touches that
corner. -/
def jsParseFloat (s : String) : Option ℚ :=
  let cs := s.data.dropWhile Char.isWhitespace
  let signed : Int × List Char :=
    match cs with
    | '-' :: r => (-1, r)
    | '+' :: r => (1, r)
    | _ => (1, cs)
  let ipr := spanDigits signed.2
  let fpr :=
    match ipr.2 with
    | '.' :: r => spanDigits r
    | _ => ([], ipr.2)
  if ipr.1.isEmpty && fpr.1.isEmpty then none
  else
    let mant : Nat := digitsToNat ipr.1 * 10 ^ fpr.1.length + digitsToNat fpr.1
    let expo : Int :=
      match fpr.2 with
      | c :: r =>
        if c = 'e' || c = 'E' then
          let se : Int × List Char :=
            match r with
            | '-' :: r3 => (-1, r3)
            | '+' :: r3 => (1, r3)
            | _ => (1, r)
          let ed := (spanDigits se.2).1
          if ed.isEmpty then 0 else se.1 * (digitsToNat ed : Int)
        else 0
      | [] => 0
    if 0 ≤ expo then
      some (mkRat (signed.1 * (mant : Int) * ((10 ^ expo.toNat : Nat) : Int))
        (10 ^ fpr.1.length))
    else
      some (mkRat (signed.1 * (mant : Int)) (10 ^ fpr.1.length * 10 ^ (-expo).toNat))

/-- `s.trim()` computed over the character list (the byte-position-based
library `String.trim` is defined by well-founded recursion and does not
reduce in the kernel). -/
def trimList (cs : List Char) : List Char :=
  ((cs.dropWhile Char.isWhitespace).reverse.dropWhile Char.isWhitespace).reverse

/-- `s.trim()`. -/
def jsTrim (s : String) : String :=
  String.mk (trimList s.data)

/-- `s.toLowerCase()` (ASCII case mapping, which covers every comparison the
parsers make; Korean characters have no case). -/
def jsToLower (s : String) : String :=
  String.mk (s.data.map Char.toLower)

/-- `s.toUpperCase()` (ASCII case mapping). -/
def jsToUpper (s : String) : String :=
  String.mk (s.data.map Char.toUpper)

/-- `s.startsWith(pre)`. -/
def jsStartsWith (s pre : String) : Bool :=
  pre.data.isPrefixOf s.data

/-- Substring search over character lists. -/
def containsSub : List Char → List Char → Bool
  | _, [] => true
  | [], _ :: _ => false
  | c :: rest, sub => sub.isPrefixOf (c :: rest) || containsSub rest sub

/-- JS `a.includes(b)`: substring containment (the empty string is contained
in everything). -/
def strIncludes (s sub : String) : Bool :=
  containsSub s.data sub.data

/-- Remove every whitespace character: `.replace(/\s+/g, '')`. -/
def stripAllWs (s : String) : String :=
  String.mk (s.data.filter (fun c => !c.isWhitespace))

/-- An ASCII capital letter, the character class `[A-Z]`. -/
def isUpperAlpha (c : Char) : Bool :=
  'A' ≤ c && c ≤ 'Z'

/-- Helper for `wordsOf`: split at whitespace characters, accumulating the
current token in reverse. -/
def splitWsAux : List Char → List Char → List (List Char)
  | [], acc => [acc.reverse]
  | c :: rest, acc =>
    if c.isWhitespace then acc.reverse :: splitWsAux rest [] else splitWsAux rest (c :: acc)

/-- `s.split(/\s+/)` on an already-trimmed string: the maximal nonempty
whitespace-delimited tokens. -/
def wordsOf (s : String) : List String :=
  ((splitWsAux s.data []).filter (fun w => w ≠ [])).map String.mk

/-- `list.join(sep)` (JS `Array.prototype.join`). -/
def joinWith (sep : String) : List String → String
  | [] => ""
  | [x] => x
  | x :: y :: xs => x ++ sep ++ joinWith sep (y :: xs)

/-- The anchored test `/^[A-Z]{lo,hi}$/`. -/
def isCapsToken (lo hi : Nat) (s : String) : Bool :=
  decide (lo ≤ s.length) && decide (s.length ≤ hi) && s.data.all isUpperAlpha

/-- Helper for `leadingTicker`: the first `k` characters are capitals and the
character at index `k` is whitespace. -/
def tickerAt (cs : List Char) (k : Nat) : Bool :=
  decide (k < cs.length) && (cs.take k).all isUpperAlpha && (cs.getD k 'x').isWhitespace

/-- The regex `/^([A-Z]{1,5})\s/`: a leading run of one to five capital
letters followed by a whitespace character; the greedy engine captures the
longest such run, modelled by trying `k = 5` down to `1`. -/
def leadingTicker (s : String) : Option String :=
  ([5, 4, 3, 2, 1].find? (fun k => tickerAt s.data k)).map
    (fun k => String.mk (s.data.take k))

/-- Left-pad with `'0'` to length `n`: `padStart(n, '0')`. -/
def padStartZeros (n : Nat) (s : String) : String :=
  String.mk (List.replicate (n - s.length) '0') ++ s

namespace HoldingsParser

/-- Embeds `KNOWN_OVERSEAS_STOCKS` (holdings-parser.ts:12), in source order
(JS object literals with non-numeric keys preserve insertion order, which the
substring-matching pass iterates over). -/
def KNOWN_OVERSEAS_STOCKS : List (String × String) :=
  [("애플", "AAPL"), ("마이크로소프트", "MSFT"), ("알파벳", "GOOGL"), ("구글", "GOOGL"),
   ("아마존", "AMZN"), ("아마존닷컴", "AMZN"), ("메타", "META"), ("메타 플랫폼스", "META"),
   ("엔비디아", "NVDA"), ("테슬라", "TSLA"), ("넷플릭스", "NFLX"),
   ("브로드컴", "AVGO"), ("어도비", "ADBE"), ("세일즈포스", "CRM"), ("오라클", "ORCL"),
   ("인텔", "INTC"), ("AMD", "AMD"), ("퀄컴", "QCOM"), ("마이크론", "MU"),
   ("ASML", "ASML"), ("TSMC", "TSM"), ("대만반도체", "TSM"), ("어플라이드머티리얼즈", "AMAT"),
   ("램리서치", "LRCX"), ("KLA", "KLAC"), ("시놉시스", "SNPS"), ("케이던스", "CDNS"),
   ("마벨테크놀로지", "MRVL"), ("ARM", "ARM"), ("암홀딩스", "ARM"), ("팔란티어", "PLTR"),
   ("스노우플레이크", "SNOW"), ("크라우드스트라이크", "CRWD"), ("데이터독", "DDOG"),
   ("서비스나우", "NOW"),
   ("JP모건", "JPM"), ("JP모간", "JPM"), ("뱅크오브아메리카", "BAC"), ("웰스파고", "WFC"),
   ("골드만삭스", "GS"), ("모건스탠리", "MS"), ("비자", "V"), ("마스터카드", "MA"),
   ("아메리칸익스프레스", "AXP"), ("페이팔", "PYPL"), ("블랙록", "BLK"), ("찰스슈왑", "SCHW"),
   ("HSBC", "HSBC"), ("HSBC홀딩스", "HSBC"), ("버크셔해서웨이", "BRK.B"),
   ("존슨앤드존슨", "JNJ"), ("존슨앤존슨", "JNJ"), ("유나이티드헬스", "UNH"), ("화이자", "PFE"),
   ("머크", "MRK"), ("애브비", "ABBV"), ("일라이릴리", "LLY"), ("노보노디스크", "NVO"),
   ("암젠", "AMGN"), ("길리어드", "GILD"), ("모더나", "MRNA"), ("바이오엔테크", "BNTX"),
   ("월마트", "WMT"), ("코스트코", "COST"), ("홈디포", "HD"), ("맥도날드", "MCD"),
   ("스타벅스", "SBUX"), ("나이키", "NKE"), ("코카콜라", "KO"), ("펩시코", "PEP"),
   ("프록터앤드갬블", "PG"), ("P&G", "PG"), ("루이비통", "LVMUY"), ("LVMH", "LVMUY"),
   ("보잉", "BA"), ("캐터필러", "CAT"), ("유니온퍼시픽", "UNP"), ("허니웰", "HON"),
   ("3M", "MMM"), ("레이시온", "RTX"), ("록히드마틴", "LMT"), ("제너럴일렉트릭", "GE"),
   ("GE", "GE"),
   ("엑손모빌", "XOM"), ("셰브론", "CVX"),
   ("AT&T", "T"), ("버라이즌", "VZ"), ("티모바일", "TMUS"), ("디즈니", "DIS"),
   ("월트디즈니", "DIS"), ("컴캐스트", "CMCSA"),
   ("알리바바", "BABA"), ("텐센트", "TCEHY"), ("바이두", "BIDU"), ("JD닷컴", "JD"),
   ("징동", "JD"), ("핀둬둬", "PDD"), ("니오", "NIO"), ("샤오펑", "XPEV"),
   ("리오토", "LI"), ("BYD", "BYDDY"), ("비야디", "BYDDY"),
   ("코어위브", "CRWV"), ("슈퍼마이크로", "SMCI"), ("C3.ai", "AI"), ("빅베어AI", "BBAI"),
   ("사운드하운드", "SOUN"),
   ("마라홀딩스", "MARA"), ("마라 홀딩스", "MARA"), ("넷스코프", "NTSK"),
   ("리졸브AI", "RZLV"), ("리졸브 AI", "RZLV"), ("트윌리오", "TWLO"), ("줌비디오", "ZM"),
   ("도큐사인", "DOCU"), ("로블록스", "RBLX"), ("유니티", "U"), ("코인베이스", "COIN"),
   ("로빈후드", "HOOD"), ("업스타트", "UPST"), ("어펌", "AFRM"), ("리비안", "RIVN"),
   ("루시드", "LCID"),
   ("아처 에비에이션", "ACHR"), ("아처에비에이션", "ACHR"), ("조비 에비에이션", "JOBY"),
   ("조비에비에이션", "JOBY"), ("불리쉬", "BWLSH"), ("버진갤럭틱", "SPCE"), ("로켓랩", "RKLB"),
   ("카메코", "CCJ"), ("우라늄에너지", "UEC"),
   ("비트마인 이머션 테크놀로지스", "BTBT"), ("비트마인 이머전 테크놀로지스", "BTBT"),
   ("비트마인", "BTBT"), ("라이엇플랫폼스", "RIOT"), ("마이크로스트래티지", "MSTR"),
   ("IBM", "IBM")]

/-- Embeds `OVERSEAS_ETF_PATTERNS` (holdings-parser.ts:183). -/
def OVERSEAS_ETF_PATTERNS : List String :=
  ["YIELDMAX", "PROSHARES", "DIREXION", "GRAYSCALE", "ISHARES",
   "SPDR", "INVESCO", "VANECK", "ARK ", "REX "]

/-- Embeds `KOREAN_COMPANIES_ENGLISH_NAME` (holdings-parser.ts:197): Korean
companies with Latin-script branding, excluded from foreign classification. -/
def KOREAN_COMPANIES_ENGLISH_NAME : List String :=
  ["NAVER", "KAKAO", "LG", "SK", "POSCO", "HYUNDAI", "SAMSUNG",
   "HANWHA", "CJ", "LOTTE", "GS", "KUMHO", "HANA", "SHINHAN",
   "KB", "NH", "WOORI", "DOUZONE", "NCSOFT", "NEXON", "NETMARBLE",
   "KRAFTON", "PEARL ABYSS", "DEVSISTERS", "COM2US"]

/-- Characters removed by `parseNumber` in holdings-parser.ts: `/[,₩$\s%원]/g`. -/
def stripHp (s : String) : String :=
  String.mk (s.data.filter (fun c =>
    !(c = ',' || c = '₩' || c = '$' || c.isWhitespace || c = '%' || c = '원')))

/-- Embeds `parseNumber` (holdings-parser.ts:292): numbers pass through,
strings are stripped of commas/currency glyphs and parsed, anything
unparseable (including `NaN`) silently becomes 0. -/
def parseNumber (value : Cell) : ℚ :=
  match value with
  | Cell.empty => 0
  | Cell.num q => q
  | Cell.str s =>
    if s = "" then 0
    else (jsParseFloat (jsTrim (stripHp s))).getD 0

/-- Embeds `detectCurrencyByPriceRatio` (holdings-parser.ts:303): explicit
"USD" wins; non-positive prices fall back to the provided currency or "KRW";
otherwise a price ratio of at least 500 in either direction means "USD". -/
def detectCurrencyByPriceRatio (avgPrice currentPrice : ℚ)
    (providedCurrency : Option String) : String :=
  if providedCurrency = some "USD" then "USD"
  else if avgPrice ≤ 0 ∨ currentPrice ≤ 0 then jsOrOpt providedCurrency "KRW"
  else if (500 : ℚ) ≤ currentPrice / avgPrice then "USD"
  else if (500 : ℚ) ≤ avgPrice / currentPrice then "USD"
  else jsOrOpt providedCurrency "KRW"

/-- Embeds `detectOverseasStock` (holdings-parser.ts:205): the Korean-company
allow-list is checked first, then exact dictionary match, substring dictionary
match in both directions, foreign-ETF brand patterns, a bare 1-5 letter
ticker, and a leading ticker followed by whitespace. -/
def detectOverseasStock (stockName : String) : Bool × String :=
  let trimmedName := jsTrim stockName
  let upperName := jsToUpper trimmedName
  if KOREAN_COMPANIES_ENGLISH_NAME.any
      (fun k => jsStartsWith upperName k || upperName == k) then
    (false, "")
  else
    match List.lookup trimmedName KNOWN_OVERSEAS_STOCKS with
    | some ticker => (true, ticker)
    | none =>
      match KNOWN_OVERSEAS_STOCKS.find?
          (fun p => strIncludes trimmedName p.1 || strIncludes p.1 trimmedName) with
      | some p => (true, p.2)
      | none =>
        match OVERSEAS_ETF_PATTERNS.find? (fun pat => strIncludes upperName (jsTrim pat)) with
        | some pat =>
          match (wordsOf trimmedName).find? (fun w => isCapsToken 2 5 w) with
          | some w => (true, w)
          | none => (true, jsTrim pat)
        | none =>
          if isCapsToken 1 5 trimmedName then (true, trimmedName)
          else
            match leadingTicker trimmedName with
            | some t => (true, t)
            | none => (false, "")

/-- Embeds `isKoreanETF` (holdings-parser.ts:253).  The entry "KoAct" is kept
verbatim from the source even though it can never match the upper-cased name. -/
def isKoreanETF (stockName : String) : Bool :=
  let etfBrands := ["KODEX", "TIGER", "KBSTAR", "ARIRANG", "HANARO",
    "KOSEF", "KINDEX", "SOL", "ACE", "RISE", "KoAct",
    "TIMEFOLIO", "FOCUS", "PLUS", "SMART", "WOORI"]
  etfBrands.any (fun b => jsStartsWith (jsToUpper stockName) b)

/-- Embeds the `ParsedHolding` record (holdings-parser.ts:265). -/
structure ParsedHolding where
  stockCode : String
  stockName : String
  quantity : ℚ
  avgPrice : ℚ
  currentPrice : ℚ
  purchaseAmount : ℚ
  evalAmount : ℚ
  profitLoss : ℚ
  returnRate : ℚ
  currency : String
  market : Option String
  isValid : Bool
  errors : List String
  deriving DecidableEq, Repr

/-- Embeds the result record `HoldingsImportResult` (holdings-parser.ts:281). -/
structure HoldingsImportResult where
  success : Bool
  holdings : List ParsedHolding
  totalRows : Nat
  validRows : Nat
  invalidRows : Nat
  detectedBrokerage : String
  errors : List String
  deriving DecidableEq, Repr

/-- A 6-character string matching `/^0[0-9A-Z]+0$/`: leading and trailing
zero digit around four digits/capitals. -/
def zeroWrapped (s : String) : Bool :=
  match s.data with
  | [c0, c1, c2, c3, c4, c5] =>
    c0 = '0' && c5 = '0' && (c1.isDigit || isUpperAlpha c1) && (c2.isDigit || isUpperAlpha c2)
      && (c3.isDigit || isUpperAlpha c3) && (c4.isDigit || isUpperAlpha c4)
  | _ => false

/-- Embeds `normalizeStockCode` (holdings-parser.ts:333): missing code falls
back to a ticker extracted from the name; a 6-character zero-wrapped code is
unwrapped (strip the outer zeros, drop the leading zeros of the core, re-pad
to 6); purely numeric codes are left-padded to 6 digits; the result is
upper-cased. -/
def normalizeStockCode (code : Option String) (name : String) : String :=
  if code = none ∨ code = some "" then
    match leadingTicker name with
    | some t => t
    | none => ""
  else
    let str0 := jsTrim (code.getD "")
    let str1 :=
      if zeroWrapped str0 then
        padStartZeros 6 (String.mk (((str0.data.drop 1).dropLast).dropWhile (fun c => c = '0')))
      else str0
    let str2 :=
      if str1 ≠ "" ∧ str1.data.all Char.isDigit then padStartZeros 6 str1 else str1
    jsToUpper str2

/-- Loop body of `parseMiraeGeneral` (holdings-parser.ts:358): `none` models
`continue` (row narrower than 10 cells, or blank security name).  The
"Missing stock name" push of the source is kept although the preceding
`continue` makes it unreachable. -/
def miraeGeneralRow (row : List Cell) : Option ParsedHolding :=
  if row.length < 10 then none
  else
    let rowType := jsTrim (cellStr (row.getD 0 Cell.empty))
    let stockName := jsTrim (cellStr (row.getD 1 Cell.empty))
    if stockName = "" then none
    else
      let isOverseas := rowType == "해외주식"
      let stockCode := if isOverseas then (detectOverseasStock stockName).2 else ""
      let quantity := parseNumber (row.getD 3 Cell.empty)
      let errors := (if quantity ≤ 0 then ["Invalid quantity"] else []) ++
        (if stockName = "" then ["Missing stock name"] else [])
      some { stockCode := stockCode, stockName := stockName, quantity := quantity,
             avgPrice := parseNumber (row.getD 5 Cell.empty),
             currentPrice := parseNumber (row.getD 7 Cell.empty),
             purchaseAmount := parseNumber (row.getD 6 Cell.empty),
             evalAmount := parseNumber (row.getD 8 Cell.empty),
             profitLoss := parseNumber (row.getD 9 Cell.empty),
             returnRate := parseNumber (row.getD 10 Cell.empty),
             currency := if isOverseas then "USD" else "KRW",
             market := some (if isOverseas then "US" else "KR"),
             isValid := errors.isEmpty, errors := errors }

/-- Embeds `parseMiraeGeneral`: the `for (let i = 1; ...)` loop over the data
rows below the header, with `continue` modelled by `Option.none`. -/
def parseMiraeGeneral (data : List (List Cell)) : List ParsedHolding :=
  (data.drop 1).filterMap miraeGeneralRow

/-- Loop body of `parseMiraeIRP` (holdings-parser.ts:418). -/
def miraeIRPRow (row : List Cell) : Option ParsedHolding :=
  if row.length < 6 then none
  else
    let stockName := jsTrim (cellStr (row.getD 0 Cell.empty))
    if stockName = "" then none
    else
      let quantity := parseNumber (row.getD 1 Cell.empty)
      let purchaseAmount := parseNumber (row.getD 2 Cell.empty)
      let evalAmount := parseNumber (row.getD 3 Cell.empty)
      let errors := if quantity ≤ 0 then ["Invalid quantity"] else []
      some { stockCode := "", stockName := stockName, quantity := quantity,
             avgPrice := if 0 < quantity then purchaseAmount / quantity else 0,
             currentPrice := if 0 < quantity then evalAmount / quantity else 0,
             purchaseAmount := purchaseAmount, evalAmount := evalAmount,
             profitLoss := parseNumber (row.getD 4 Cell.empty),
             returnRate := parseNumber (row.getD 5 Cell.empty),
             currency := "KRW", market := some "KR",
             isValid := errors.isEmpty, errors := errors }

/-- Embeds `parseMiraeIRP`. -/
def parseMiraeIRP (data : List (List Cell)) : List ParsedHolding :=
  (data.drop 1).filterMap miraeIRPRow

/-- Loop body of `parseSamsung` (holdings-parser.ts:463): rows narrower than
11 cells, rows with a blank security name and cash/deposit/RP balance rows
are skipped; the return rate is scaled by 100 (the export stores fractions). -/
def samsungRow (row : List Cell) : Option ParsedHolding :=
  if row.length < 11 then none
  else
    let stockName := jsTrim (cellStr (row.getD 2 Cell.empty))
    if stockName = "" then none
    else if strIncludes stockName "현금" || strIncludes stockName "예수금"
        || strIncludes stockName "RP" then none
    else
      let quantity := parseNumber (row.getD 4 Cell.empty)
      let overseas :=
        if isKoreanETF stockName then (false, "")
        else detectOverseasStock stockName
      let errors := if quantity ≤ 0 then ["Invalid quantity"] else []
      some { stockCode := overseas.2, stockName := stockName, quantity := quantity,
             avgPrice := parseNumber (row.getD 5 Cell.empty),
             currentPrice := parseNumber (row.getD 6 Cell.empty),
             purchaseAmount := parseNumber (row.getD 8 Cell.empty),
             evalAmount := parseNumber (row.getD 7 Cell.empty),
             profitLoss := parseNumber (row.getD 9 Cell.empty),
             returnRate := parseNumber (row.getD 10 Cell.empty) * 100,
             currency := if overseas.1 then "USD" else "KRW",
             market := some (if overseas.1 then "US" else "KR"),
             isValid := errors.isEmpty, errors := errors }

/-- Embeds `parseSamsung`. -/
def parseSamsung (data : List (List Cell)) : List ParsedHolding :=
  (data.drop 1).filterMap samsungRow

/-- Loop body of `parseHanwhaDomestic` (holdings-parser.ts:524). -/
def hanwhaDomesticRow (row : List Cell) : Option ParsedHolding :=
  if row.length < 12 then none
  else
    let stockName := jsTrim (cellStr (row.getD 2 Cell.empty))
    if stockName = "" then none
    else
      let quantity := parseNumber (row.getD 3 Cell.empty)
      let errors := if quantity ≤ 0 then ["Invalid quantity"] else []
      some { stockCode := normalizeStockCode (some (cellStr (row.getD 12 Cell.empty))) stockName,
             stockName := stockName, quantity := quantity,
             avgPrice := parseNumber (row.getD 4 Cell.empty),
             currentPrice := parseNumber (row.getD 7 Cell.empty),
             purchaseAmount := parseNumber (row.getD 9 Cell.empty),
             evalAmount := parseNumber (row.getD 8 Cell.empty),
             profitLoss := parseNumber (row.getD 5 Cell.empty),
             returnRate := parseNumber (row.getD 6 Cell.empty),
             currency := "KRW", market := some "KR",
             isValid := errors.isEmpty, errors := errors }

/-- Embeds `parseHanwhaDomestic`. -/
def parseHanwhaDomestic (data : List (List Cell)) : List ParsedHolding :=
  (data.drop 1).filterMap hanwhaDomesticRow

/-- Loop body of `parseHanwhaOverseas` (holdings-parser.ts:568). -/
def hanwhaOverseasRow (row : List Cell) : Option ParsedHolding :=
  if row.length < 12 then none
  else
    let stockName := jsTrim (cellStr (row.getD 1 Cell.empty))
    if stockName = "" then none
    else
      let quantity := parseNumber (row.getD 2 Cell.empty)
      let currencyRaw := jsTrim (cellStrD (row.getD 11 Cell.empty) "USD")
      let marketRaw := jsTrim (cellStr (row.getD 13 Cell.empty))
      let errors := if quantity ≤ 0 then ["Invalid quantity"] else []
      some { stockCode := jsToUpper (jsTrim (cellStr (row.getD 9 Cell.empty))),
             stockName := stockName, quantity := quantity,
             avgPrice := parseNumber (row.getD 3 Cell.empty),
             currentPrice := parseNumber (row.getD 5 Cell.empty),
             purchaseAmount := parseNumber (row.getD 4 Cell.empty),
             evalAmount := parseNumber (row.getD 6 Cell.empty),
             profitLoss := parseNumber (row.getD 7 Cell.empty),
             returnRate := parseNumber (row.getD 8 Cell.empty),
             currency := if currencyRaw == "USD" then "USD" else "KRW",
             market := some (jsOrS marketRaw "US"),
             isValid := errors.isEmpty, errors := errors }

/-- Embeds `parseHanwhaOverseas`. -/
def parseHanwhaOverseas (data : List (List Cell)) : List ParsedHolding :=
  (data.drop 1).filterMap hanwhaOverseasRow

/-- Embeds `detectFileFormat` (holdings-parser.ts:615): substring-presence
rules over the lower-cased, pipe-joined header text, in source order. -/
def detectFileFormat (headers : List Cell) (data : List (List Cell)) : String :=
  let headerStr := joinWith "|" (headers.map (fun h => jsToLower (cellStr h)))
  if strIncludes headerStr "계좌번호" && strIncludes headerStr "계좌유형" then "SAMSUNG"
  else if strIncludes headerStr "거래국가" || strIncludes headerStr "기준환율" then
    "HANWHA_OVERSEAS"
  else if strIncludes headerStr "잔고비중" || strIncludes headerStr "신용구분" then
    "HANWHA_DOMESTIC"
  else if strIncludes headerStr "운용비율" then "MIRAE_IRP"
  else if strIncludes headerStr "유형" && decide (1 < data.length) then
    let firstType := jsToLower (cellStr ((data.getD 1 []).getD 0 Cell.empty))
    if strIncludes firstType "주식" || strIncludes firstType "해외" then "MIRAE_GENERAL"
    else "UNKNOWN"
  else "UNKNOWN"

/-- The brokerage label assigned in each `switch` arm of `parseHoldingsFile`. -/
def brokerageLabel (format : String) : String :=
  if format = "MIRAE_GENERAL" then "미래에셋"
  else if format = "MIRAE_IRP" then "미래에셋 IRP"
  else if format = "SAMSUNG" then "삼성증권"
  else if format = "HANWHA_DOMESTIC" then "한화투자증권 (국내)"
  else if format = "HANWHA_OVERSEAS" then "한화투자증권 (해외)"
  else ""

/-- The parser dispatched in each `switch` arm of `parseHoldingsFile`; the
default arm (unknown format) contributes no holdings. -/
def rawHoldingsOfFormat (format : String) (data : List (List Cell)) : List ParsedHolding :=
  if format = "MIRAE_GENERAL" then parseMiraeGeneral data
  else if format = "MIRAE_IRP" then parseMiraeIRP data
  else if format = "SAMSUNG" then parseSamsung data
  else if format = "HANWHA_DOMESTIC" then parseHanwhaDomestic data
  else if format = "HANWHA_OVERSEAS" then parseHanwhaOverseas data
  else []

/-- The holdings list of `parseHoldingsFile` before the currency post-pass. -/
def rawHoldings (data : List (List Cell)) : List ParsedHolding :=
  if data.length < 2 then []
  else rawHoldingsOfFormat (detectFileFormat (data.headD []) data) data

/-- Loop body of the currency post-pass of `parseHoldingsFile`
(holdings-parser.ts:712): a non-USD record with both prices positive is
flipped to USD / market "US" when the ratio heuristic reports USD. -/
def currencyFix (h : ParsedHolding) : ParsedHolding :=
  if h.currency ≠ "USD" ∧ 0 < h.avgPrice ∧ 0 < h.currentPrice then
    let corrected := detectCurrencyByPriceRatio h.avgPrice h.currentPrice (some h.currency)
    if corrected = "USD" ∧ h.currency ≠ "USD" then
      { h with currency := "USD", market := some "US" }
    else h
  else h

/-- The currency post-pass applied to every parsed record. -/
def currencyPostPass (hs : List ParsedHolding) : List ParsedHolding :=
  hs.map currencyFix

/-- The final aggregation block of `parseHoldingsFile` (holdings-parser.ts:722). -/
def assembleHoldings (label : String) (hs : List ParsedHolding) : HoldingsImportResult :=
  { success := decide (0 < (hs.filter (fun h => h.isValid)).length),
    holdings := hs,
    totalRows := hs.length,
    validRows := (hs.filter (fun h => h.isValid)).length,
    invalidRows := (hs.filter (fun h => !h.isValid)).length,
    detectedBrokerage := label, errors := [] }

/-- A file-level failure result: the initial result record with one error
pushed, as returned by the early exits of `parseHoldingsFile`. -/
def mkHoldingsFailure (msg : String) : HoldingsImportResult :=
  { success := false, holdings := [], totalRows := 0, validRows := 0,
    invalidRows := 0, detectedBrokerage := "", errors := [msg] }

/-- Embeds `parseHoldingsFile` (holdings-parser.ts:650) from the point where
the sheet has been extracted into the cell grid `data`: fewer than two rows
is a file-level error, an unrecognized format is a file-level error, and
otherwise the format's parser runs followed by the currency post-pass and the
count aggregation. -/
def parseHoldingsGrid (data : List (List Cell)) : HoldingsImportResult :=
  if data.length < 2 then mkHoldingsFailure "데이터가 없습니다"
  else
    let format := detectFileFormat (data.headD []) data
    if format = "UNKNOWN" then mkHoldingsFailure "알 수 없는 파일 형식입니다"
    else assembleHoldings (brokerageLabel format)
      (currencyPostPass (rawHoldingsOfFormat format data))

end HoldingsParser

/-- The three canonical transaction kinds. -/
inductive TxType where
  | BUY
  | SELL
  | DIVIDEND
  deriving DecidableEq, Repr

/-- Civil-calendar date (year, month, day) from a count of days since
1970-01-01 (Howard Hinnant's `civil_from_days`; the era adjustment makes all
remaining divisions act on nonnegative values, so truncating integer division
is exact). -/
def civilFromDays (z0 : Int) : Int × Nat × Nat :=
  let z := z0 + 719468
  let era : Int := (if 0 ≤ z then z else z - 146096) / 146097
  let doe : Int := z - era * 146097
  let yoe : Int := (doe - doe / 1460 + doe / 36524 - doe / 146096) / 365
  let y : Int := yoe + era * 400
  let doy : Int := doe - (365 * yoe + yoe / 4 - yoe / 100)
  let mp : Int := (5 * doy + 2) / 153
  let d : Int := doy - (153 * mp + 2) / 5 + 1
  let m : Int := if mp < 10 then mp + 3 else mp - 9
  (if m ≤ 2 then y + 1 else y, m.toNat, d.toNat)

/-- `String(n).padStart(2, '0')` for a month or day number. -/
def pad2 (n : Nat) : String :=
  if n < 10 then "0" ++ toString n else toString n

/-- Serial-date conversion of `parseDate` in brokerage-parsers.ts: the
1899-12-30 epoch plus the (floored) day count, read back as a calendar date
(serial 25569 is 1970-01-01).  The JS source performs this with local-time
`Date` arithmetic; the model uses pure calendar arithmetic, which agrees
except under sub-day daylight-saving anomalies outside this model. -/
def serialToIso (q : ℚ) : String :=
  let ymd := civilFromDays (q.floor - 25569)
  toString ymd.1 ++ "-" ++ pad2 ymd.2.1 ++ "-" ++ pad2 ymd.2.2

/-- Model of `XLSX.SSF.parse_date_code` restricted to the 1900 date system:
out-of-range codes give `none`; serial 60 is the fictitious 1900-02-29;
below 60 the epoch is 1899-12-31, above it 1899-12-30.  This external-library
conversion is only reached for nonzero numeric cells of the legacy
transactions parser, and no theorem below depends on its output. -/
def ssfParseDateCode (q : ℚ) : Option (Int × Nat × Nat) :=
  if q < 0 ∨ (2958466 : ℚ) ≤ q then none
  else
    let n := q.floor
    if n = 60 then some (1900, 2, 29)
    else if n < 60 then some (civilFromDays (n - 25568))
    else some (civilFromDays (n - 25569))

/-- The anchored test `/^\d{4}-\d{2}-\d{2}$/`. -/
def isIsoDashDate (cs : List Char) : Bool :=
  match cs with
  | [y1, y2, y3, y4, s1, m1, m2, s2, d1, d2] =>
    y1.isDigit && y2.isDigit && y3.isDigit && y4.isDigit && s1 = '-'
      && m1.isDigit && m2.isDigit && s2 = '-' && d1.isDigit && d2.isDigit
  | _ => false

/-- The separator class `[\/\.]`. -/
def isSepSD (c : Char) : Bool :=
  c = '/' || c = '.'

/-- Greedy `\d{1,2}` followed by a required separator, with regex
backtracking: two digits are taken when the character after them satisfies
`sep`, else one digit is taken when its successor does. -/
def grabMD (sep : Char → Bool) : List Char → Option (List Char × List Char)
  | d1 :: d2 :: s :: rest =>
    if d1.isDigit && d2.isDigit && sep s then some ([d1, d2], rest)
    else if d1.isDigit && sep d2 then some ([d1], s :: rest)
    else none
  | [d1, s] => if d1.isDigit && sep s then some ([d1], []) else none
  | _ => none

/-- Greedy `\d{1,2}` with no requirement after it (prefix match). -/
def grabD12 : List Char → Option (List Char × List Char)
  | d1 :: d2 :: rest =>
    if d1.isDigit then
      if d2.isDigit then some ([d1, d2], rest) else some ([d1], d2 :: rest)
    else none
  | [d1] => if d1.isDigit then some ([d1], []) else none
  | [] => none

/-- The prefix match `/^(\d{4})[\/\.](\d{1,2})[\/\.](\d{1,2})/` of
brokerage-parsers.ts `parseDate`, with zero-padding of month and day
(trailing text is permitted: the regex is not anchored at the end). -/
def ymdSlashDot (cs : List Char) : Option String :=
  match cs with
  | y1 :: y2 :: y3 :: y4 :: s :: rest =>
    if y1.isDigit && y2.isDigit && y3.isDigit && y4.isDigit && isSepSD s then
      match grabMD isSepSD rest with
      | some (md, rest2) =>
        match grabD12 rest2 with
        | some (dd, _) =>
          some (String.mk [y1, y2, y3, y4] ++ "-" ++ padStartZeros 2 (String.mk md)
            ++ "-" ++ padStartZeros 2 (String.mk dd))
        | none => none
      | none => none
    else none
  | _ => none

/-- The anchored match `/^(\d{1,2})\/(\d{1,2})\/(\d{4})$/` (US month-first
date), with zero-padding of month and day. -/
def usDate (cs : List Char) : Option String :=
  match grabMD (fun c => c = '/') cs with
  | some (mm, rest) =>
    match grabMD (fun c => c = '/') rest with
    | some (dd, rest2) =>
      match rest2 with
      | [y1, y2, y3, y4] =>
        if y1.isDigit && y2.isDigit && y3.isDigit && y4.isDigit then
          some (String.mk [y1, y2, y3, y4] ++ "-" ++ padStartZeros 2 (String.mk mm)
            ++ "-" ++ padStartZeros 2 (String.mk dd))
        else none
      | _ => none
    | none => none
  | none => none

/-- The anchored match `/^(\d{4})[\/\.](\d{2})[\/\.](\d{2})$/` of the legacy
excel-import.ts `parseDate` (strict two-digit month and day). -/
def ymdStrict (cs : List Char) : Option String :=
  match cs with
  | [y1, y2, y3, y4, s1, m1, m2, s2, d1, d2] =>
    if y1.isDigit && y2.isDigit && y3.isDigit && y4.isDigit && isSepSD s1
        && m1.isDigit && m2.isDigit && isSepSD s2 && d1.isDigit && d2.isDigit then
      some (String.mk [y1, y2, y3, y4] ++ "-" ++ String.mk [m1, m2] ++ "-" ++ String.mk [d1, d2])
    else none
  | _ => none

/-- The 8-digit `YYYYMMDD` form, reformatted with dashes. -/
def eightDigitDate (cs : List Char) : Option String :=
  if cs.length = 8 && cs.all Char.isDigit then
    some (String.mk (cs.take 4) ++ "-" ++ String.mk ((cs.drop 4).take 2)
      ++ "-" ++ String.mk (cs.drop 6))
  else none

/-- Index of the first element satisfying `p` (JS `Array.findIndex`). -/
def firstMatchIdx (p : α → Bool) : List α → Option Nat
  | [] => none
  | a :: l => if p a then some 0 else (firstMatchIdx p l).map (fun i => i + 1)

/-- The shared loop shape of both column resolvers: try each candidate in
order, return the first hit as an index, `-1` when no candidate matches. -/
def resolveColumns (f : String → Option Nat) : List String → Int
  | [] => -1
  | n :: rest =>
    match f n with
    | some i => (i : Int)
    | none => resolveColumns f rest

/-- `[...new Set(list)]`: deduplication preserving first occurrences. -/
def dedupStrings (l : List String) : List String :=
  l.foldl (fun acc s => if acc.contains s then acc else acc ++ [s]) []

namespace ExcelImport

/-- Embeds the `ImportRow` record (excel-import.ts:11). -/
structure ImportRow where
  date : String
  stockCode : String
  stockName : String
  type : TxType
  quantity : ℚ
  price : ℚ
  currency : String
  isValid : Bool
  errors : List String
  deriving DecidableEq, Repr

/-- Embeds the `ImportResult` record (excel-import.ts:23). -/
structure ImportResult where
  success : Bool
  rows : List ImportRow
  totalRows : Nat
  validRows : Nat
  invalidRows : Nat
  errors : List String
  detectedBrokerage : Option String
  deriving DecidableEq, Repr

/-- Embeds `TYPE_MAPPINGS` (excel-import.ts:34). -/
def TYPE_MAPPINGS : List (String × TxType) :=
  [("매수", TxType.BUY), ("매도", TxType.SELL), ("배당", TxType.DIVIDEND),
   ("배당금", TxType.DIVIDEND), ("현금배당", TxType.DIVIDEND), ("주식배당", TxType.DIVIDEND),
   ("입고", TxType.BUY), ("출고", TxType.SELL),
   ("buy", TxType.BUY), ("sell", TxType.SELL), ("dividend", TxType.DIVIDEND),
   ("purchase", TxType.BUY), ("sale", TxType.SELL)]

/-- Embeds `CURRENCY_MAPPINGS` (excel-import.ts:53). -/
def CURRENCY_MAPPINGS : List (String × String) :=
  [("원", "KRW"), ("원화", "KRW"), ("krw", "KRW"), ("KRW", "KRW"),
   ("달러", "USD"), ("미국달러", "USD"), ("usd", "USD"), ("USD", "USD"),
   ("$", "USD"), ("₩", "KRW")]

/-- The seven per-field synonym lists of `COLUMN_MAPPINGS` (excel-import.ts:67). -/
structure FieldSynonyms where
  date : List String
  stockCode : List String
  stockName : List String
  type : List String
  quantity : List String
  price : List String
  currency : List String

/-- Embeds `COLUMN_MAPPINGS` (excel-import.ts:67). -/
def COLUMN_MAPPINGS : FieldSynonyms :=
  { date := ["거래일", "거래일자", "일자", "날짜", "date", "trade_date", "체결일", "체결일자"],
    stockCode := ["종목코드", "종목번호", "코드", "code", "stock_code", "symbol", "티커"],
    stockName := ["종목명", "종목", "종목이름", "name", "stock_name", "상품명"],
    type := ["거래유형", "거래구분", "유형", "구분", "type", "trade_type", "매매구분"],
    quantity := ["수량", "거래수량", "quantity", "qty", "체결수량"],
    price := ["단가", "거래단가", "가격", "price", "체결단가", "체결가"],
    currency := ["통화", "화폐", "currency", "결제통화"] }

/-- `h?.toString().toLowerCase().trim()` applied to a header cell; an absent
cell stays absent and can never equal a candidate string. -/
def lowerHeader (c : Cell) : Option String :=
  match c with
  | Cell.empty => none
  | c => some (jsTrim (jsToLower (jsString c)))

/-- Embeds `findColumnIndex` (excel-import.ts:77): exact `indexOf` match of
each lower-cased candidate against the lower-cased trimmed header cells. -/
def findColumnIndex (headers : List Cell) (mappings : List String) : Int :=
  let lowerHeaders := headers.map lowerHeader
  resolveColumns
    (fun mapping => firstMatchIdx (fun h => h == some (jsToLower mapping)) lowerHeaders)
    mappings

/-- Embeds `parseDate` (excel-import.ts:86): numeric cells go through the
spreadsheet serial-date conversion (`XLSX.SSF.parse_date_code`), falling back
to the string patterns when the serial is out of range; strings must match
`YYYY-MM-DD`, `YYYYMMDD`, or strictly two-digit `YYYY/MM/DD` / `YYYY.MM.DD`. -/
def parseDateStrV1 (str : String) : Option String :=
  let cs := str.data
  if isIsoDashDate cs then some str
  else
    match eightDigitDate cs with
    | some r => some r
    | none => ymdStrict cs

/-- The cell-level wrapper of the legacy `parseDate`. -/
def parseDate (value : Cell) : Option String :=
  if cellFalsy value then none
  else
    match value with
    | Cell.num q =>
      match ssfParseDateCode q with
      | some ymd => some (toString ymd.1 ++ "-" ++ pad2 ymd.2.1 ++ "-" ++ pad2 ymd.2.2)
      | none => parseDateStrV1 (jsTrim (jsString (Cell.num q)))
    | c => parseDateStrV1 (jsTrim (jsString c))

/-- Embeds `parseType` (excel-import.ts:121). -/
def parseType (value : Cell) : Option TxType :=
  if cellFalsy value then none
  else List.lookup (jsToLower (jsTrim (jsString value))) TYPE_MAPPINGS

/-- Embeds `parseCurrency` (excel-import.ts:127). -/
def parseCurrency (value : Cell) : String :=
  if cellFalsy value then "KRW"
  else
    let str := jsTrim (jsString value)
    ((List.lookup str CURRENCY_MAPPINGS).orElse
      (fun _ => List.lookup (jsToLower str) CURRENCY_MAPPINGS)).getD "KRW"

/-- Characters removed by the legacy `parseNumber`: `/[,₩$\s]/g`. -/
def stripV1 (s : String) : String :=
  String.mk (s.data.filter (fun c => !(c = ',' || c = '₩' || c = '$' || c.isWhitespace)))

/-- Embeds `parseNumber` (excel-import.ts:133): like the holdings version but
with `null` (not 0) as the failure value and no percent/원 stripping. -/
def parseNumber (value : Cell) : Option ℚ :=
  match value with
  | Cell.empty => none
  | Cell.num q => some q
  | Cell.str s => if s = "" then none else jsParseFloat (jsTrim (stripV1 s))

/-- Embeds `parseStockCode` (excel-import.ts:143, identical in
brokerage-parsers.ts:632): numeric codes are padded to six digits, all codes
upper-cased; falsy cells give the empty string. -/
def parseStockCode (value : Cell) : String :=
  if cellFalsy value then ""
  else
    let str := jsTrim (jsString value)
    let str2 := if str ≠ "" ∧ str.data.all Char.isDigit then padStartZeros 6 str else str
    jsToUpper str2

/-- Loop body of `parseLegacy` (excel-import.ts:175): empty rows are skipped
(`none`); all other rows are returned with their validation errors. -/
def legacyRow (dateCol codeCol nameCol typeCol qtyCol priceCol curCol : Int)
    (row : List Cell) : Option ImportRow :=
  if row.length = 0 then none
  else
    let date := parseDate (cellAt row dateCol)
    let e1 := if date = none then ["Invalid date"] else []
    let stockCode := if codeCol ≠ -1 then parseStockCode (cellAt row codeCol) else ""
    let stockName := if nameCol ≠ -1 then jsTrim (cellStr (cellAt row nameCol)) else stockCode
    let e2 := if stockCode = "" ∧ stockName = "" then ["Missing stock code/name"] else []
    let ty := parseType (cellAt row typeCol)
    let e3 := if ty = none then ["Invalid transaction type"] else []
    let quantity := parseNumber (cellAt row qtyCol)
    let e4 :=
      if (match quantity with | none => true | some v => decide (v ≤ 0)) then
        ["Invalid quantity"]
      else []
    let price := parseNumber (cellAt row priceCol)
    let e5 :=
      if (match price with | none => true | some v => decide (v < 0)) then
        ["Invalid price"]
      else []
    let errors := e1 ++ e2 ++ e3 ++ e4 ++ e5
    some { date := date.getD "", stockCode := jsOrS stockCode stockName,
           stockName := jsOrS stockName stockCode, type := ty.getD TxType.BUY,
           quantity := quantity.getD 0, price := price.getD 0,
           currency := if curCol ≠ -1 then parseCurrency (cellAt row curCol) else "KRW",
           isValid := errors.isEmpty, errors := errors }

/-- Embeds `parseLegacy` (excel-import.ts:159). -/
def parseLegacy (data : List (List Cell)) : List ImportRow :=
  if data.length < 2 then []
  else
    let headers := data.headD []
    (data.drop 1).filterMap (legacyRow
      (findColumnIndex headers COLUMN_MAPPINGS.date)
      (findColumnIndex headers COLUMN_MAPPINGS.stockCode)
      (findColumnIndex headers COLUMN_MAPPINGS.stockName)
      (findColumnIndex headers COLUMN_MAPPINGS.type)
      (findColumnIndex headers COLUMN_MAPPINGS.quantity)
      (findColumnIndex headers COLUMN_MAPPINGS.price)
      (findColumnIndex headers COLUMN_MAPPINGS.currency))

end ExcelImport

namespace BrokerageParsers

/-- Embeds the `BrokerageType` union (brokerage-parsers.ts:302). -/
inductive BrokerageType where
  | KOREA_INV
  | MIRAE
  | SAMSUNG
  | KIWOOM
  | NH
  | KB
  | TOSS
  | KAKAO
  | AUTO
  deriving DecidableEq, Repr

/-- The TS string literal of a `BrokerageType` value. -/
def btLabel (b : BrokerageType) : String :=
  match b with
  | BrokerageType.KOREA_INV => "KOREA_INV"
  | BrokerageType.MIRAE => "MIRAE"
  | BrokerageType.SAMSUNG => "SAMSUNG"
  | BrokerageType.KIWOOM => "KIWOOM"
  | BrokerageType.NH => "NH"
  | BrokerageType.KB => "KB"
  | BrokerageType.TOSS => "TOSS"
  | BrokerageType.KAKAO => "KAKAO"
  | BrokerageType.AUTO => "AUTO"

/-- Embeds the `BrokerageConfig` record (brokerage-parsers.ts:328); the unused
optional `skipRows`/`encoding` fields are never set by any config and are
omitted. -/
structure BrokerageConfig where
  name : String
  dateColumns : List String
  stockCodeColumns : List String
  stockNameColumns : List String
  typeColumns : List String
  quantityColumns : List String
  priceColumns : List String
  amountColumns : List String
  currencyColumns : List String
  feeColumns : List String
  taxColumns : List String
  typeMappings : List (String × TxType)
  dateFormats : List String

/-- Embeds `BROKERAGE_CONFIGS` (brokerage-parsers.ts:347), indexed by
brokerage; `AUTO` has no config (the JS lookup yields `undefined`). -/
def BROKERAGE_CONFIGS (b : BrokerageType) : Option BrokerageConfig :=
  match b with
  | BrokerageType.KOREA_INV => some
    { name := "한국투자증권",
      dateColumns := ["거래일자", "거래일", "체결일자", "체결일", "trade_date"],
      stockCodeColumns := ["종목코드", "종목번호", "코드", "stock_code", "symbol"],
      stockNameColumns := ["종목명", "종목", "상품명", "stock_name", "name"],
      typeColumns := ["거래구분", "거래유형", "매매구분", "구분", "trade_type", "type"],
      quantityColumns := ["수량", "거래수량", "체결수량", "quantity", "qty"],
      priceColumns := ["단가", "거래단가", "체결단가", "체결가", "price"],
      amountColumns := ["거래금액", "정산금액", "체결금액", "금액", "amount"],
      currencyColumns := ["통화", "결제통화", "화폐", "currency"],
      feeColumns := ["수수료", "거래수수료", "commission", "fee"],
      taxColumns := ["세금", "제세금", "거래세", "tax"],
      typeMappings := [("매수", TxType.BUY), ("매도", TxType.SELL), ("배당", TxType.DIVIDEND),
        ("배당금", TxType.DIVIDEND), ("현금배당", TxType.DIVIDEND), ("주식배당", TxType.DIVIDEND),
        ("입고", TxType.BUY), ("출고", TxType.SELL), ("buy", TxType.BUY),
        ("sell", TxType.SELL), ("dividend", TxType.DIVIDEND)],
      dateFormats := ["YYYYMMDD", "YYYY-MM-DD", "YYYY/MM/DD", "YYYY.MM.DD"] }
  | BrokerageType.KIWOOM => some
    { name := "키움증권",
      dateColumns := ["거래일", "일자", "체결일", "체결일자", "거래일자"],
      stockCodeColumns := ["종목코드", "종목번호", "코드"],
      stockNameColumns := ["종목명", "종목", "상품명"],
      typeColumns := ["거래구분", "구분", "매매구분", "거래유형"],
      quantityColumns := ["수량", "거래수량", "체결수량"],
      priceColumns := ["단가", "체결가", "체결단가", "거래단가"],
      amountColumns := ["거래대금", "거래금액", "정산금액", "체결금액"],
      currencyColumns := ["통화", "화폐"],
      feeColumns := ["수수료", "위탁수수료"],
      taxColumns := ["세금", "거래세", "제세금", "증권거래세"],
      typeMappings := [("매수", TxType.BUY), ("매도", TxType.SELL), ("배당", TxType.DIVIDEND),
        ("배당금", TxType.DIVIDEND), ("현금배당", TxType.DIVIDEND), ("보통주매수", TxType.BUY),
        ("보통주매도", TxType.SELL), ("입고", TxType.BUY), ("출고", TxType.SELL)],
      dateFormats := ["YYYYMMDD", "YYYY-MM-DD", "YYYY/MM/DD"] }
  | BrokerageType.MIRAE => some
    { name := "미래에셋",
      dateColumns := ["체결일자", "거래일자", "거래일", "일자", "체결일"],
      stockCodeColumns := ["종목코드", "종목번호", "코드", "상품코드"],
      stockNameColumns := ["종목명", "상품명", "종목"],
      typeColumns := ["매매구분", "거래구분", "구분", "거래유형"],
      quantityColumns := ["체결수량", "수량", "거래수량"],
      priceColumns := ["체결단가", "체결가", "단가", "거래단가"],
      amountColumns := ["체결금액", "거래금액", "정산금액", "결제금액"],
      currencyColumns := ["통화", "결제통화", "화폐"],
      feeColumns := ["수수료", "거래수수료", "위탁수수료"],
      taxColumns := ["제세금", "세금", "거래세"],
      typeMappings := [("매수", TxType.BUY), ("매도", TxType.SELL), ("배당", TxType.DIVIDEND),
        ("배당금입금", TxType.DIVIDEND), ("현금배당", TxType.DIVIDEND), ("주식배당", TxType.DIVIDEND)],
      dateFormats := ["YYYY/MM/DD", "YYYYMMDD", "YYYY-MM-DD"] }
  | BrokerageType.SAMSUNG => some
    { name := "삼성증권",
      dateColumns := ["거래일", "거래일자", "체결일", "일자"],
      stockCodeColumns := ["종목코드", "종목번호", "코드"],
      stockNameColumns := ["종목명", "종목", "상품명"],
      typeColumns := ["거래유형", "거래구분", "구분", "매매구분"],
      quantityColumns := ["수량", "거래수량", "체결수량"],
      priceColumns := ["단가", "거래단가", "체결단가", "체결가격"],
      amountColumns := ["거래금액", "체결금액", "결제금액"],
      currencyColumns := ["통화", "화폐"],
      feeColumns := ["수수료", "거래수수료"],
      taxColumns := ["세금", "제세금", "거래세"],
      typeMappings := [("매수", TxType.BUY), ("매도", TxType.SELL), ("배당", TxType.DIVIDEND),
        ("배당금", TxType.DIVIDEND), ("현금배당", TxType.DIVIDEND), ("입고", TxType.BUY),
        ("출고", TxType.SELL)],
      dateFormats := ["YYYY-MM-DD", "YYYYMMDD", "YYYY/MM/DD"] }
  | BrokerageType.NH => some
    { name := "NH투자증권",
      dateColumns := ["거래일자", "거래일", "체결일자", "체결일", "일자"],
      stockCodeColumns := ["종목코드", "종목번호", "코드"],
      stockNameColumns := ["종목명", "종목", "상품명"],
      typeColumns := ["매매구분", "거래구분", "구분", "거래유형"],
      quantityColumns := ["체결수량", "수량", "거래수량"],
      priceColumns := ["체결단가", "단가", "체결가", "거래단가"],
      amountColumns := ["체결금액", "거래금액", "정산금액"],
      currencyColumns := ["통화", "화폐", "결제통화"],
      feeColumns := ["수수료", "거래수수료"],
      taxColumns := ["세금", "제세금"],
      typeMappings := [("매수", TxType.BUY), ("매도", TxType.SELL), ("배당", TxType.DIVIDEND),
        ("배당금", TxType.DIVIDEND), ("현금배당", TxType.DIVIDEND), ("매수체결", TxType.BUY),
        ("매도체결", TxType.SELL)],
      dateFormats := ["YYYYMMDD", "YYYY-MM-DD", "YYYY/MM/DD"] }
  | BrokerageType.KB => some
    { name := "KB증권",
      dateColumns := ["거래일", "거래일자", "체결일", "일자"],
      stockCodeColumns := ["종목코드", "종목번호", "코드"],
      stockNameColumns := ["종목명", "종목", "상품명"],
      typeColumns := ["구분", "거래구분", "매매구분", "거래유형"],
      quantityColumns := ["수량", "거래수량", "체결수량"],
      priceColumns := ["단가", "거래단가", "체결단가"],
      amountColumns := ["금액", "거래금액", "체결금액"],
      currencyColumns := ["통화", "화폐"],
      feeColumns := ["수수료"],
      taxColumns := ["세금", "거래세"],
      typeMappings := [("매수", TxType.BUY), ("매도", TxType.SELL), ("배당", TxType.DIVIDEND),
        ("배당금", TxType.DIVIDEND), ("현금배당", TxType.DIVIDEND)],
      dateFormats := ["YYYY-MM-DD", "YYYYMMDD", "YYYY/MM/DD"] }
  | BrokerageType.TOSS => some
    { name := "토스증권",
      dateColumns := ["거래일", "거래일시", "체결일", "일자"],
      stockCodeColumns := ["종목코드", "티커", "코드"],
      stockNameColumns := ["종목명", "종목", "상품명"],
      typeColumns := ["거래유형", "구분", "거래구분"],
      quantityColumns := ["수량", "거래수량"],
      priceColumns := ["단가", "체결가", "가격"],
      amountColumns := ["거래금액", "금액", "체결금액"],
      currencyColumns := ["통화"],
      feeColumns := ["수수료"],
      taxColumns := ["세금"],
      typeMappings := [("매수", TxType.BUY), ("매도", TxType.SELL), ("배당", TxType.DIVIDEND),
        ("배당금", TxType.DIVIDEND)],
      dateFormats := ["YYYY-MM-DD", "YYYY.MM.DD"] }
  | BrokerageType.KAKAO => some
    { name := "카카오페이증권",
      dateColumns := ["거래일", "거래일자", "체결일"],
      stockCodeColumns := ["종목코드", "코드"],
      stockNameColumns := ["종목명", "종목"],
      typeColumns := ["거래유형", "구분"],
      quantityColumns := ["수량", "거래수량"],
      priceColumns := ["단가", "체결가"],
      amountColumns := ["거래금액", "금액"],
      currencyColumns := ["통화"],
      feeColumns := ["수수료"],
      taxColumns := ["세금"],
      typeMappings := [("매수", TxType.BUY), ("매도", TxType.SELL), ("배당", TxType.DIVIDEND)],
      dateFormats := ["YYYY-MM-DD", "YYYY.MM.DD"] }
  | BrokerageType.AUTO => none

/-- Embeds `COMMON_TYPE_MAPPINGS` (brokerage-parsers.ts:502). -/
def COMMON_TYPE_MAPPINGS : List (String × TxType) :=
  [("매수", TxType.BUY), ("매도", TxType.SELL), ("배당", TxType.DIVIDEND),
   ("배당금", TxType.DIVIDEND), ("현금배당", TxType.DIVIDEND), ("주식배당", TxType.DIVIDEND),
   ("입고", TxType.BUY), ("출고", TxType.SELL),
   ("buy", TxType.BUY), ("sell", TxType.SELL), ("dividend", TxType.DIVIDEND),
   ("purchase", TxType.BUY), ("sale", TxType.SELL)]

/-- Embeds `CURRENCY_MAPPINGS` (brokerage-parsers.ts:518): like the legacy
table plus the "미달러" synonym. -/
def CURRENCY_MAPPINGS : List (String × String) :=
  [("원", "KRW"), ("원화", "KRW"), ("krw", "KRW"), ("KRW", "KRW"),
   ("달러", "USD"), ("미국달러", "USD"), ("미달러", "USD"), ("usd", "USD"),
   ("USD", "USD"), ("$", "USD"), ("₩", "KRW")]

/-- `h?.toString().toLowerCase().trim().replace(/\s+/g, '')` applied to a
header cell. -/
def normHeader (c : Cell) : Option String :=
  match c with
  | Cell.empty => none
  | c => some (stripAllWs (jsTrim (jsToLower (jsString c))))

/-- The same normalization applied to a candidate column name. -/
def normKey (name : String) : String :=
  stripAllWs (jsTrim (jsToLower name))

/-- The per-header predicate of `findColumnIndex` (brokerage-parsers.ts:540):
a normalized header cell matches a normalized candidate when it equals it or
contains it as a substring — both tests are applied together in one pass. -/
def headerMatches (h : Option String) (key : String) : Bool :=
  match h with
  | some hs => hs == key || strIncludes hs key
  | none => false

/-- Embeds `findColumnIndex` (brokerage-parsers.ts:533). -/
def findColumnIndex (headers : List Cell) (possibleNames : List String) : Int :=
  let normalizedHeaders := headers.map normHeader
  resolveColumns
    (fun name => firstMatchIdx (fun h => headerMatches h (normKey name)) normalizedHeaders)
    possibleNames

/-- Embeds `parseDate` (brokerage-parsers.ts:547): numeric serials convert
via the 1899-12-30 epoch; strings match `YYYY-MM-DD`, `YYYYMMDD`,
`YYYY/MM/DD` or `YYYY.MM.DD` with one- or two-digit month/day (as a prefix),
then US `MM/DD/YYYY`; `none` models the `null` no-match result. -/
def parseDateStr (str : String) : Option String :=
  let cs := str.data
  if isIsoDashDate cs then some str
  else
    match eightDigitDate cs with
    | some r => some r
    | none =>
      match ymdSlashDot cs with
      | some r => some r
      | none => usDate cs

/-- The cell-level wrapper of the flexible `parseDate`. -/
def parseDate (value : Cell) : Option String :=
  if cellFalsy value then none
  else
    match value with
    | Cell.num q => some (serialToIso q)
    | c => parseDateStr (jsTrim (jsString c))

/-- Embeds `parseType` (brokerage-parsers.ts:592): the brokerage-specific
mapping is consulted first, then the common mapping. -/
def parseType (value : Cell) (config : Option BrokerageConfig) : Option TxType :=
  if cellFalsy value then none
  else
    let str := jsToLower (jsTrim (jsString value))
    match config.bind (fun c => List.lookup str c.typeMappings) with
    | some t => some t
    | none => List.lookup str COMMON_TYPE_MAPPINGS

/-- Embeds `parseCurrency` (brokerage-parsers.ts:607). -/
def parseCurrency (value : Cell) : String :=
  if cellFalsy value then "KRW"
  else
    let str := jsTrim (jsString value)
    ((List.lookup str CURRENCY_MAPPINGS).orElse
      (fun _ => List.lookup (jsToLower str) CURRENCY_MAPPINGS)).getD "KRW"

/-- Characters removed by `parseNumber` (brokerage-parsers.ts:614):
`/[,₩$\s원]/g`. -/
def stripBp (s : String) : String :=
  String.mk (s.data.filter (fun c =>
    !(c = ',' || c = '₩' || c = '$' || c.isWhitespace || c = '원')))

/-- The anchored test `/^\([\d.]+\)$/`. -/
def parenWrapped (s : String) : Bool :=
  match s.data with
  | '(' :: rest =>
    (rest.getLast? == some ')') && !rest.dropLast.isEmpty
      && rest.dropLast.all (fun c => c.isDigit || c = '.')
  | _ => false

/-- Embeds `parseNumber` (brokerage-parsers.ts:614): strips separators and
currency glyphs, maps a parenthesized value to its negation, and returns
`none` (JS `null`) for empty or unparseable input. -/
def parseNumber (value : Cell) : Option ℚ :=
  match value with
  | Cell.empty => none
  | Cell.num q => some q
  | Cell.str s =>
    if s = "" then none
    else
      let str := jsTrim (stripBp s)
      if parenWrapped str then
        (jsParseFloat (String.mk (str.data.filter (fun c => !(c = '(' || c = ')'))))).map
          (fun n => -n)
      else jsParseFloat str

/-- Embeds `parseStockCode` (brokerage-parsers.ts:632), identical to the
legacy version. -/
def parseStockCode (value : Cell) : String :=
  ExcelImport.parseStockCode value

/-- Embeds `detectBrokerage` (brokerage-parsers.ts:645): substring-presence
rules over the lower-cased, space-joined header text, in source order;
`none` models the `null` unknown result. -/
def detectBrokerage (headers : List Cell) : Option BrokerageType :=
  let headerStr := jsToLower (joinWith " " (headers.map jsString))
  if strIncludes headerStr "한국투자" || strIncludes headerStr "정산금액" then
    some BrokerageType.KOREA_INV
  else if strIncludes headerStr "키움" || strIncludes headerStr "영웅문"
      || strIncludes headerStr "위탁수수료" then some BrokerageType.KIWOOM
  else if strIncludes headerStr "미래에셋" || strIncludes headerStr "m-stock" then
    some BrokerageType.MIRAE
  else if strIncludes headerStr "삼성증권" || strIncludes headerStr "팝" then
    some BrokerageType.SAMSUNG
  else if strIncludes headerStr "nh투자" || strIncludes headerStr "나무" then
    some BrokerageType.NH
  else if strIncludes headerStr "kb증권" || strIncludes headerStr "m-able" then
    some BrokerageType.KB
  else if strIncludes headerStr "토스증권" || strIncludes headerStr "toss" then
    some BrokerageType.TOSS
  else if strIncludes headerStr "카카오페이" || strIncludes headerStr "kakaopay" then
    some BrokerageType.KAKAO
  else none

/-- The seven resolved column indices of `parseWithBrokerageConfig`. -/
structure ResolvedCols where
  dateCol : Int
  codeCol : Int
  nameCol : Int
  typeCol : Int
  qtyCol : Int
  priceCol : Int
  currencyCol : Int

/-- Loop body of `parseWithBrokerageConfig` (brokerage-parsers.ts:734): empty
rows are skipped; every other row is returned, with validation errors for an
unparseable date, missing code and name, unmapped type token, non-positive
quantity, and negative price. -/
def bpRow (config : Option BrokerageConfig) (cols : ResolvedCols)
    (row : List Cell) : Option ExcelImport.ImportRow :=
  if row.length = 0 then none
  else
    let date := if cols.dateCol ≠ -1 then parseDate (cellAt row cols.dateCol) else none
    let e1 := if date = none then ["Invalid date"] else []
    let stockCode := if cols.codeCol ≠ -1 then parseStockCode (cellAt row cols.codeCol) else ""
    let stockName :=
      if cols.nameCol ≠ -1 then jsTrim (cellStr (cellAt row cols.nameCol)) else stockCode
    let e2 := if stockCode = "" ∧ stockName = "" then ["Missing stock code/name"] else []
    let ty := if cols.typeCol ≠ -1 then parseType (cellAt row cols.typeCol) config else none
    let e3 := if ty = none then ["Invalid transaction type"] else []
    let quantity := if cols.qtyCol ≠ -1 then parseNumber (cellAt row cols.qtyCol) else none
    let e4 :=
      if (match quantity with | none => true | some v => decide (v ≤ 0)) then
        ["Invalid quantity"]
      else []
    let price := if cols.priceCol ≠ -1 then parseNumber (cellAt row cols.priceCol) else none
    let e5 :=
      if (match price with | none => true | some v => decide (v < 0)) then
        ["Invalid price"]
      else []
    let errors := e1 ++ e2 ++ e3 ++ e4 ++ e5
    some { date := date.getD "",
           stockCode := jsOrS stockCode stockName,
           stockName := jsOrS stockName stockCode,
           type := ty.getD TxType.BUY,
           quantity := quantity.getD 0, price := price.getD 0,
           currency :=
             if cols.currencyCol ≠ -1 then parseCurrency (cellAt row cols.currencyCol)
             else "KRW",
           isValid := errors.isEmpty, errors := errors }

/-- Embeds `parseWithBrokerageConfig` (brokerage-parsers.ts:678): the config
is chosen by explicit brokerage or auto-detection, each per-field candidate
list is the deduplicated union of the config's synonyms and the global
fallback list, and every non-empty data row is parsed. -/
def parseWithBrokerageConfig (headers : List Cell) (dataRows : List (List Cell))
    (brokerageType : BrokerageType) : List ExcelImport.ImportRow :=
  let config : Option BrokerageConfig :=
    if brokerageType = BrokerageType.AUTO then
      (detectBrokerage headers).bind
        (fun d => if d = BrokerageType.AUTO then none else BROKERAGE_CONFIGS d)
    else BROKERAGE_CONFIGS brokerageType
  let cols : ResolvedCols :=
    { dateCol := findColumnIndex headers (dedupStrings
        (((config.map (fun c => c.dateColumns)).getD []) ++
          ["거래일", "거래일자", "체결일", "체결일자", "일자", "date", "trade_date"])),
      codeCol := findColumnIndex headers (dedupStrings
        (((config.map (fun c => c.stockCodeColumns)).getD []) ++
          ["종목코드", "종목번호", "코드", "code", "stock_code", "symbol", "티커"])),
      nameCol := findColumnIndex headers (dedupStrings
        (((config.map (fun c => c.stockNameColumns)).getD []) ++
          ["종목명", "종목", "상품명", "name", "stock_name"])),
      typeCol := findColumnIndex headers (dedupStrings
        (((config.map (fun c => c.typeColumns)).getD []) ++
          ["거래구분", "거래유형", "매매구분", "구분", "type", "trade_type"])),
      qtyCol := findColumnIndex headers (dedupStrings
        (((config.map (fun c => c.quantityColumns)).getD []) ++
          ["수량", "거래수량", "체결수량", "quantity", "qty"])),
      priceCol := findColumnIndex headers (dedupStrings
        (((config.map (fun c => c.priceColumns)).getD []) ++
          ["단가", "거래단가", "체결단가", "체결가", "price"])),
      currencyCol := findColumnIndex headers (dedupStrings
        (((config.map (fun c => c.currencyColumns)).getD []) ++
          ["통화", "화폐", "currency", "결제통화"])) }
  dataRows.filterMap (bpRow config cols)

end BrokerageParsers

namespace ExcelImport

/-- A file-level failure result of `parseExcelFile`. -/
def mkImportFailure (msg : String) : ImportResult :=
  { success := false, rows := [], totalRows := 0, validRows := 0,
    invalidRows := 0, errors := [msg], detectedBrokerage := none }

/-- The final aggregation block of `parseExcelFile` (excel-import.ts:263). -/
def assembleImport (db : Option String) (rows : List ImportRow) : ImportResult :=
  { success := decide (0 < (rows.filter (fun r => r.isValid)).length),
    rows := rows, totalRows := rows.length,
    validRows := (rows.filter (fun r => r.isValid)).length,
    invalidRows := (rows.filter (fun r => !r.isValid)).length,
    errors := [], detectedBrokerage := db }

/-- The brokerage resolution `brokerage || detectBrokerage(headers)` of
`parseExcelFile` (the explicit argument, `AUTO` included, is truthy and wins). -/
def resolvedBrokerage (headers : List Cell)
    (brokerage : Option BrokerageParsers.BrokerageType) :
    Option BrokerageParsers.BrokerageType :=
  match brokerage with
  | some b => some b
  | none => BrokerageParsers.detectBrokerage headers

/-- The detected-brokerage label and the parsed row list of `parseExcelFile`:
a known non-`AUTO` brokerage selects the config-driven parser and its config
name as label; otherwise the legacy parser runs with no label. -/
def dispatchRows (data : List (List Cell))
    (brokerage : Option BrokerageParsers.BrokerageType) :
    Option String × List ImportRow :=
  match resolvedBrokerage (data.headD []) brokerage with
  | some b =>
    if b = BrokerageParsers.BrokerageType.AUTO then (none, parseLegacy data)
    else
      (some (((BrokerageParsers.BROKERAGE_CONFIGS b).map (fun c => c.name)).getD
          (BrokerageParsers.btLabel b)),
        BrokerageParsers.parseWithBrokerageConfig (data.headD []) (data.drop 1) b)
  | none => (none, parseLegacy data)

/-- Embeds `parseExcelFile` (excel-import.ts:215) from the point where the
sheet has been extracted into the cell grid `data`: fewer than two rows is a
file-level error; otherwise the explicit brokerage (or the auto-detected one)
selects the config-driven parser, with the legacy parser as fallback when no
brokerage is known or `AUTO` is passed explicitly. -/
def parseExcelGrid (data : List (List Cell))
    (brokerage : Option BrokerageParsers.BrokerageType) : ImportResult :=
  if data.length < 2 then mkImportFailure "File is empty or has no data rows"
  else assembleImport (dispatchRows data brokerage).1 (dispatchRows data brokerage).2

end ExcelImport

/-! ## Helper lemmas -/

lemma length_filter_add_length_filter_not (l : List α) (p : α → Bool) :
    (l.filter p).length + (l.filter (fun a => !p a)).length = l.length := by
  induction l with
  | nil => simp
  | cons a l ih =>
    cases h : p a <;> simp [List.filter_cons, h] <;> omega

lemma filter_congr_mem (l : List α) (p q : α → Bool) (h : ∀ a ∈ l, p a = q a) :
    l.filter p = l.filter q := by
  induction l with
  | nil => rfl
  | cons a l ih =>
    have ha := h a (by simp)
    simp only [List.filter_cons, ha]
    rw [ih (fun a hm => h a (by simp [hm]))]

lemma length_filterMap_isSome (f : α → Option β) (l : List α) :
    (l.filterMap f).length = (l.filter (fun a => (f a).isSome)).length := by
  induction l with
  | nil => rfl
  | cons a l ih =>
    cases h : f a <;> simp [List.filterMap_cons, List.filter_cons, h, ih]

/-- Every result of `parseHoldingsGrid` is either a file-level failure or the
assembled aggregation of the post-passed holdings. -/
lemma parseHoldingsGrid_shape (data : List (List Cell)) :
    (∃ msg, HoldingsParser.parseHoldingsGrid data = HoldingsParser.mkHoldingsFailure msg
      ∧ HoldingsParser.rawHoldings data = [])
    ∨ HoldingsParser.parseHoldingsGrid data
      = HoldingsParser.assembleHoldings
          (HoldingsParser.brokerageLabel (HoldingsParser.detectFileFormat (data.headD []) data))
          (HoldingsParser.currencyPostPass (HoldingsParser.rawHoldings data)) := by
  unfold HoldingsParser.parseHoldingsGrid HoldingsParser.rawHoldings
  by_cases h2 : data.length < 2
  · exact Or.inl ⟨_, by rw [if_pos h2], by rw [if_pos h2]⟩
  · rw [if_neg h2, if_neg h2]
    by_cases hu : HoldingsParser.detectFileFormat (data.headD []) data = "UNKNOWN"
    · refine Or.inl ⟨_, by rw [if_pos hu], ?_⟩
      rw [hu]
      rfl
    · rw [if_neg hu]
      exact Or.inr rfl

/-- Every result of `parseExcelGrid` is either a file-level failure or the
assembled aggregation of some parsed row list. -/
lemma parseExcelGrid_shape (data : List (List Cell))
    (b : Option BrokerageParsers.BrokerageType) :
    (∃ msg, ExcelImport.parseExcelGrid data b = ExcelImport.mkImportFailure msg)
    ∨ ExcelImport.parseExcelGrid data b
      = ExcelImport.assembleImport (ExcelImport.dispatchRows data b).1
          (ExcelImport.dispatchRows data b).2 := by
  unfold ExcelImport.parseExcelGrid
  by_cases h2 : data.length < 2
  · exact Or.inl ⟨_, by rw [if_pos h2]⟩
  · exact Or.inr (by rw [if_neg h2])

lemma assembleHoldings_counts (label : String) (hs : List HoldingsParser.ParsedHolding) :
    (HoldingsParser.assembleHoldings label hs).validRows
        + (HoldingsParser.assembleHoldings label hs).invalidRows
      = (HoldingsParser.assembleHoldings label hs).totalRows
    ∧ (HoldingsParser.assembleHoldings label hs).totalRows
      = (HoldingsParser.assembleHoldings label hs).holdings.length := by
  refine ⟨?_, rfl⟩
  exact length_filter_add_length_filter_not hs (fun h => h.isValid)

lemma assembleImport_counts (db : Option String) (rows : List ExcelImport.ImportRow) :
    (ExcelImport.assembleImport db rows).validRows
        + (ExcelImport.assembleImport db rows).invalidRows
      = (ExcelImport.assembleImport db rows).totalRows
    ∧ (ExcelImport.assembleImport db rows).totalRows
      = (ExcelImport.assembleImport db rows).rows.length := by
  refine ⟨?_, rfl⟩
  exact length_filter_add_length_filter_not rows (fun r => r.isValid)

/-- For positive prices, the two one-sided ratio tests of the source are
equivalent to the spec's single `max/min` ratio test. -/
lemma ratio_max_min (a b : ℚ) (ha : 0 < a) (hb : 0 < b) :
    (500 ≤ max a b / min a b) ↔ (500 ≤ b / a ∨ 500 ≤ a / b) := by
  rcases le_total a b with h | h
  · rw [max_eq_right h, min_eq_left h]
    constructor
    · exact fun hr => Or.inl hr
    · rintro (hr | hr)
      · exact hr
      · have h1 : a / b ≤ 1 := (div_le_one hb).2 h
        linarith
  · rw [max_eq_left h, min_eq_right h]
    constructor
    · exact fun hr => Or.inr hr
    · rintro (hr | hr)
      · have h1 : b / a ≤ 1 := (div_le_one ha).2 h
        linarith
      · exact hr

lemma jsOrOpt_eq_getD (ec : Option String) (hec : ec ≠ some "") :
    jsOrOpt ec "KRW" = ec.getD "KRW" := by
  cases ec with
  | none => rfl
  | some s =>
    have hs : s ≠ "" := fun h => hec (by simp [h])
    simp [jsOrOpt, hs]

/-- C1: for all prices and optional explicit currency, the currency inference
returns "USD" unconditionally when the explicit currency is "USD"; returns the
explicit currency (else "KRW") when either price is non-positive; and
otherwise returns "USD" exactly when max(priceA,priceB)/min(priceA,priceB) is
at least 500, else the explicit currency (else "KRW"). -/
theorem C1_currency_inference (a b : ℚ) (ec : Option String) (hec : ec ≠ some "") :
    (ec = some "USD" → HoldingsParser.detectCurrencyByPriceRatio a b ec = "USD") ∧
    ((a ≤ 0 ∨ b ≤ 0) → HoldingsParser.detectCurrencyByPriceRatio a b ec = ec.getD "KRW") ∧
    (0 < a → 0 < b →
      (500 ≤ max a b / min a b → HoldingsParser.detectCurrencyByPriceRatio a b ec = "USD") ∧
      (max a b / min a b < 500 →
        HoldingsParser.detectCurrencyByPriceRatio a b ec = ec.getD "KRW")) := by
  have hor := jsOrOpt_eq_getD ec hec
  unfold HoldingsParser.detectCurrencyByPriceRatio
  by_cases husd : ec = some "USD"
  · subst husd
    refine ⟨fun _ => by simp, fun _ => by simp, fun _ _ => ⟨fun _ => by simp, fun _ => by simp⟩⟩
  · rw [if_neg husd]
    refine ⟨fun h => absurd h husd, ?_, ?_⟩
    · intro hle
      rw [if_pos hle, hor]
    · intro ha hb
      have hnle : ¬(a ≤ 0 ∨ b ≤ 0) := by
        rintro (h | h) <;> linarith
      rw [if_neg hnle]
      constructor
      · intro hr
        rcases (ratio_max_min a b ha hb).1 hr with h1 | h1
        · rw [if_pos h1]
        · by_cases h2 : (500 : ℚ) ≤ b / a
          · rw [if_pos h2]
          · rw [if_neg h2, if_pos h1]
      · intro hr
        have hno : ¬(500 ≤ b / a ∨ 500 ≤ a / b) := by
          intro hcon
          have := (ratio_max_min a b ha hb).2 hcon
          linarith
        push_neg at hno
        rw [if_neg (not_le.2 hno.1), if_neg (not_le.2 hno.2), hor]

/-- C1 witness: the boundary examples from the spec, obtained from
`C1_currency_inference` at concrete inputs. -/
theorem C1_currency_inference_witness :
    HoldingsParser.detectCurrencyByPriceRatio 100 50000 none = "USD" ∧
    HoldingsParser.detectCurrencyByPriceRatio 100 49900 none = "KRW" ∧
    HoldingsParser.detectCurrencyByPriceRatio 0 100 none = "KRW" ∧
    HoldingsParser.detectCurrencyByPriceRatio 150 180 (some "USD") = "USD" := by
  refine ⟨?_, ?_, ?_, ?_⟩
  · exact ((C1_currency_inference 100 50000 none (by simp)).2.2 (by norm_num)
      (by norm_num)).1 (by norm_num [max_def, min_def])
  · have h := ((C1_currency_inference 100 49900 none (by simp)).2.2 (by norm_num)
      (by norm_num)).2 (by norm_num [max_def, min_def])
    simpa using h
  · have h := (C1_currency_inference 0 100 none (by simp)).2.1 (Or.inl le_rfl)
    simpa using h
  · exact (C1_currency_inference 150 180 (some "USD") (by simp)).1 rfl

/-- C6: the row accounting invariant: in both the holdings path
(`parseHoldingsGrid`) and the transactions path (`parseExcelGrid`), for every
input grid, validRowCount + invalidRowCount equals totalRows, which equals
the length of the returned record list. -/
theorem C6_row_accounting (data : List (List Cell))
    (b : Option BrokerageParsers.BrokerageType) :
    ((HoldingsParser.parseHoldingsGrid data).validRows
        + (HoldingsParser.parseHoldingsGrid data).invalidRows
        = (HoldingsParser.parseHoldingsGrid data).totalRows
      ∧ (HoldingsParser.parseHoldingsGrid data).totalRows
        = (HoldingsParser.parseHoldingsGrid data).holdings.length)
    ∧ ((ExcelImport.parseExcelGrid data b).validRows
        + (ExcelImport.parseExcelGrid data b).invalidRows
        = (ExcelImport.parseExcelGrid data b).totalRows
      ∧ (ExcelImport.parseExcelGrid data b).totalRows
        = (ExcelImport.parseExcelGrid data b).rows.length) := by
  constructor
  · rcases parseHoldingsGrid_shape data with ⟨msg, hEq, _⟩ | hEq
    · rw [hEq]; exact ⟨rfl, rfl⟩
    · rw [hEq]; exact assembleHoldings_counts _ _
  · rcases parseExcelGrid_shape data b with ⟨msg, hEq⟩ | hEq
    · rw [hEq]; exact ⟨rfl, rfl⟩
    · rw [hEq]; exact assembleImport_counts _ _

/-- C7: on every execution path of both ingestion entry points — including
the file-level failures, which return zero counts and no records — the
`success` flag equals the test `validRows > 0`. -/
theorem C7_succeeded_iff_valid (data : List (List Cell))
    (b : Option BrokerageParsers.BrokerageType) :
    (HoldingsParser.parseHoldingsGrid data).success
      = decide (0 < (HoldingsParser.parseHoldingsGrid data).validRows)
    ∧ (ExcelImport.parseExcelGrid data b).success
      = decide (0 < (ExcelImport.parseExcelGrid data b).validRows) := by
  constructor
  · rcases parseHoldingsGrid_shape data with ⟨msg, hEq, _⟩ | hEq <;> rw [hEq] <;> rfl
  · rcases parseExcelGrid_shape data b with ⟨msg, hEq⟩ | hEq <;> rw [hEq] <;> rfl

/-- C5: the holdings pipeline applies the currency post-pass to every
assembled record, and the post-pass step flips exactly the records whose
currency is not "USD", whose two prices are positive, and for which the
ratio heuristic reports "USD" — those end with currency "USD" and market
"US", and every other record is returned unchanged. -/
theorem C5_currency_postpass (data : List (List Cell))
    (h : HoldingsParser.ParsedHolding) :
    (HoldingsParser.parseHoldingsGrid data).holdings
      = HoldingsParser.currencyPostPass (HoldingsParser.rawHoldings data)
    ∧ HoldingsParser.currencyFix h
      = (if h.currency ≠ "USD" ∧ 0 < h.avgPrice ∧ 0 < h.currentPrice
            ∧ HoldingsParser.detectCurrencyByPriceRatio h.avgPrice h.currentPrice
                (some h.currency) = "USD"
          then { h with currency := "USD", market := some "US" } else h) := by
  constructor
  · rcases parseHoldingsGrid_shape data with ⟨msg, hEq, hraw⟩ | hEq
    · rw [hEq, hraw]; rfl
    · rw [hEq]; rfl
  · simp only [HoldingsParser.currencyFix]
    by_cases h1 : h.currency ≠ "USD" ∧ 0 < h.avgPrice ∧ 0 < h.currentPrice
    · rw [if_pos h1]
      by_cases h2 : HoldingsParser.detectCurrencyByPriceRatio h.avgPrice h.currentPrice
          (some h.currency) = "USD"
      · rw [if_pos ⟨h2, h1.1⟩, if_pos ⟨h1.1, h1.2.1, h1.2.2, h2⟩]
      · rw [if_neg (fun hc => h2 hc.1), if_neg (fun hc => h2 hc.2.2.2)]
    · rw [if_neg h1, if_neg (fun hc => h1 ⟨hc.1, hc.2.1, hc.2.2.1⟩)]

lemma samsungRow_fields (row : List Cell) (h : HoldingsParser.ParsedHolding)
    (hrow : HoldingsParser.samsungRow row = some h) :
    h.isValid = decide (0 < h.quantity) ∧ h.stockName ≠ "" := by
  simp only [HoldingsParser.samsungRow] at hrow
  split at hrow
  · simp at hrow
  · split at hrow
    · simp at hrow
    · split at hrow
      · simp at hrow
      · rename_i hlen hname hcash
        rw [Option.some.injEq] at hrow
        subst hrow
        refine ⟨?_, hname⟩
        dsimp only
        split_ifs with hq
        · exact (decide_eq_false (not_lt.2 hq)).symm
        · exact (decide_eq_true (not_le.1 hq)).symm

lemma miraeGeneralRow_fields (row : List Cell) (h : HoldingsParser.ParsedHolding)
    (hrow : HoldingsParser.miraeGeneralRow row = some h) :
    h.isValid = decide (0 < h.quantity) ∧ h.stockName ≠ "" := by
  simp only [HoldingsParser.miraeGeneralRow] at hrow
  split at hrow
  · simp at hrow
  · split at hrow
    · simp at hrow
    · rename_i hlen hname
      rw [Option.some.injEq] at hrow
      subst hrow
      refine ⟨?_, hname⟩
      dsimp only
      split_ifs with hq
      · exact (decide_eq_false (not_lt.2 hq)).symm
      · exact (decide_eq_true (not_le.1 hq)).symm

lemma miraeIRPRow_fields (row : List Cell) (h : HoldingsParser.ParsedHolding)
    (hrow : HoldingsParser.miraeIRPRow row = some h) :
    h.isValid = decide (0 < h.quantity) ∧ h.stockName ≠ "" := by
  simp only [HoldingsParser.miraeIRPRow] at hrow
  split at hrow
  · simp at hrow
  · split at hrow
    · simp at hrow
    · rename_i hlen hname
      rw [Option.some.injEq] at hrow
      subst hrow
      refine ⟨?_, hname⟩
      dsimp only
      split_ifs with hq
      · exact (decide_eq_false (not_lt.2 hq)).symm
      · exact (decide_eq_true (not_le.1 hq)).symm

lemma hanwhaDomesticRow_fields (row : List Cell) (h : HoldingsParser.ParsedHolding)
    (hrow : HoldingsParser.hanwhaDomesticRow row = some h) :
    h.isValid = decide (0 < h.quantity) ∧ h.stockName ≠ "" := by
  simp only [HoldingsParser.hanwhaDomesticRow] at hrow
  split at hrow
  · simp at hrow
  · split at hrow
    · simp at hrow
    · rename_i hlen hname
      rw [Option.some.injEq] at hrow
      subst hrow
      refine ⟨?_, hname⟩
      dsimp only
      split_ifs with hq
      · exact (decide_eq_false (not_lt.2 hq)).symm
      · exact (decide_eq_true (not_le.1 hq)).symm

lemma hanwhaOverseasRow_fields (row : List Cell) (h : HoldingsParser.ParsedHolding)
    (hrow : HoldingsParser.hanwhaOverseasRow row = some h) :
    h.isValid = decide (0 < h.quantity) ∧ h.stockName ≠ "" := by
  simp only [HoldingsParser.hanwhaOverseasRow] at hrow
  split at hrow
  · simp at hrow
  · split at hrow
    · simp at hrow
    · rename_i hlen hname
      rw [Option.some.injEq] at hrow
      subst hrow
      refine ⟨?_, hname⟩
      dsimp only
      split_ifs with hq
      · exact (decide_eq_false (not_lt.2 hq)).symm
      · exact (decide_eq_true (not_le.1 hq)).symm

lemma parseSamsung_fields (data : List (List Cell)) :
    ∀ h ∈ HoldingsParser.parseSamsung data,
      h.isValid = decide (0 < h.quantity) ∧ h.stockName ≠ "" := by
  intro h hm
  simp only [HoldingsParser.parseSamsung, List.mem_filterMap] at hm
  obtain ⟨row, _, hrow⟩ := hm
  exact samsungRow_fields row h hrow

lemma parseMiraeGeneral_fields (data : List (List Cell)) :
    ∀ h ∈ HoldingsParser.parseMiraeGeneral data,
      h.isValid = decide (0 < h.quantity) ∧ h.stockName ≠ "" := by
  intro h hm
  simp only [HoldingsParser.parseMiraeGeneral, List.mem_filterMap] at hm
  obtain ⟨row, _, hrow⟩ := hm
  exact miraeGeneralRow_fields row h hrow

lemma parseMiraeIRP_fields (data : List (List Cell)) :
    ∀ h ∈ HoldingsParser.parseMiraeIRP data,
      h.isValid = decide (0 < h.quantity) ∧ h.stockName ≠ "" := by
  intro h hm
  simp only [HoldingsParser.parseMiraeIRP, List.mem_filterMap] at hm
  obtain ⟨row, _, hrow⟩ := hm
  exact miraeIRPRow_fields row h hrow

lemma parseHanwhaDomestic_fields (data : List (List Cell)) :
    ∀ h ∈ HoldingsParser.parseHanwhaDomestic data,
      h.isValid = decide (0 < h.quantity) ∧ h.stockName ≠ "" := by
  intro h hm
  simp only [HoldingsParser.parseHanwhaDomestic, List.mem_filterMap] at hm
  obtain ⟨row, _, hrow⟩ := hm
  exact hanwhaDomesticRow_fields row h hrow

lemma parseHanwhaOverseas_fields (data : List (List Cell)) :
    ∀ h ∈ HoldingsParser.parseHanwhaOverseas data,
      h.isValid = decide (0 < h.quantity) ∧ h.stockName ≠ "" := by
  intro h hm
  simp only [HoldingsParser.parseHanwhaOverseas, List.mem_filterMap] at hm
  obtain ⟨row, _, hrow⟩ := hm
  exact hanwhaOverseasRow_fields row h hrow

lemma rawHoldings_fields (data : List (List Cell)) :
    ∀ h ∈ HoldingsParser.rawHoldings data,
      h.isValid = decide (0 < h.quantity) ∧ h.stockName ≠ "" := by
  intro h hm
  unfold HoldingsParser.rawHoldings at hm
  split at hm
  · simp at hm
  · unfold HoldingsParser.rawHoldingsOfFormat at hm
    split_ifs at hm
    · exact parseMiraeGeneral_fields _ h hm
    · exact parseMiraeIRP_fields _ h hm
    · exact parseSamsung_fields _ h hm
    · exact parseHanwhaDomestic_fields _ h hm
    · exact parseHanwhaOverseas_fields _ h hm
    · simp at hm

lemma currencyFix_preserves (h : HoldingsParser.ParsedHolding) :
    (HoldingsParser.currencyFix h).isValid = h.isValid
    ∧ (HoldingsParser.currencyFix h).quantity = h.quantity
    ∧ (HoldingsParser.currencyFix h).stockName = h.stockName := by
  simp only [HoldingsParser.currencyFix]
  split_ifs <;> exact ⟨rfl, rfl, rfl⟩

lemma postPass_fields (hs : List HoldingsParser.ParsedHolding)
    (hall : ∀ h ∈ hs, h.isValid = decide (0 < h.quantity) ∧ h.stockName ≠ "") :
    ∀ h ∈ HoldingsParser.currencyPostPass hs,
      h.isValid = decide (0 < h.quantity) ∧ h.stockName ≠ "" := by
  intro h hm
  simp only [HoldingsParser.currencyPostPass, List.mem_map] at hm
  obtain ⟨g, hg, rfl⟩ := hm
  obtain ⟨h1, h2⟩ := hall g hg
  obtain ⟨p1, p2, p3⟩ := currencyFix_preserves g
  refine ⟨?_, ?_⟩
  · rw [p1, p2, h1]
  · rw [p3]
    exact h2

lemma bpRow_isSome (cfg : Option BrokerageParsers.BrokerageConfig)
    (cols : BrokerageParsers.ResolvedCols) (row : List Cell) :
    (BrokerageParsers.bpRow cfg cols row).isSome = !row.isEmpty := by
  cases row with
  | nil => rfl
  | cons a l => simp [BrokerageParsers.bpRow]

lemma bpRow_isValid (cfg : Option BrokerageParsers.BrokerageConfig)
    (cols : BrokerageParsers.ResolvedCols) (row : List Cell)
    (r : ExcelImport.ImportRow) (hrow : BrokerageParsers.bpRow cfg cols row = some r) :
    r.isValid = r.errors.isEmpty := by
  simp only [BrokerageParsers.bpRow] at hrow
  split at hrow
  · simp at hrow
  · rw [Option.some.injEq] at hrow
    subst hrow
    rfl

lemma legacyRow_isValid (c1 c2 c3 c4 c5 c6 c7 : Int) (row : List Cell)
    (r : ExcelImport.ImportRow)
    (hrow : ExcelImport.legacyRow c1 c2 c3 c4 c5 c6 c7 row = some r) :
    r.isValid = r.errors.isEmpty := by
  simp only [ExcelImport.legacyRow] at hrow
  split at hrow
  · simp at hrow
  · rw [Option.some.injEq] at hrow
    subst hrow
    rfl

lemma samsungRow_blank (row : List Cell)
    (hb : jsTrim (cellStr (row.getD 2 Cell.empty)) = "") :
    HoldingsParser.samsungRow row = none := by
  simp only [HoldingsParser.samsungRow]
  split_ifs <;> rfl

lemma miraeGeneralRow_blank (row : List Cell)
    (hb : jsTrim (cellStr (row.getD 1 Cell.empty)) = "") :
    HoldingsParser.miraeGeneralRow row = none := by
  simp only [HoldingsParser.miraeGeneralRow]
  split_ifs <;> rfl

lemma pwbc_isValid (headers : List Cell) (rows : List (List Cell))
    (bt : BrokerageParsers.BrokerageType) :
    ∀ r ∈ BrokerageParsers.parseWithBrokerageConfig headers rows bt,
      r.isValid = r.errors.isEmpty := by
  intro r hm
  simp only [BrokerageParsers.parseWithBrokerageConfig, List.mem_filterMap] at hm
  obtain ⟨row, _, hrow⟩ := hm
  exact bpRow_isValid _ _ row r hrow

lemma pwbc_length (headers : List Cell) (rows : List (List Cell))
    (bt : BrokerageParsers.BrokerageType) :
    (BrokerageParsers.parseWithBrokerageConfig headers rows bt).length
      = (rows.filter (fun row => !row.isEmpty)).length := by
  simp only [BrokerageParsers.parseWithBrokerageConfig]
  rw [length_filterMap_isSome]
  congr 1
  apply filter_congr_mem
  intro row _
  exact bpRow_isSome _ _ row

lemma parseLegacy_isValid (data : List (List Cell)) :
    ∀ r ∈ ExcelImport.parseLegacy data, r.isValid = r.errors.isEmpty := by
  intro r hm
  unfold ExcelImport.parseLegacy at hm
  split at hm
  · simp at hm
  · simp only [List.mem_filterMap] at hm
    obtain ⟨row, _, hrow⟩ := hm
    exact legacyRow_isValid _ _ _ _ _ _ _ row r hrow

lemma samsungRow_kept (row : List Cell)
    (h1 : ¬row.length < 11)
    (h2 : jsTrim (cellStr (row.getD 2 Cell.empty)) ≠ "")
    (h3 : (strIncludes (jsTrim (cellStr (row.getD 2 Cell.empty))) "현금"
        || strIncludes (jsTrim (cellStr (row.getD 2 Cell.empty))) "예수금"
        || strIncludes (jsTrim (cellStr (row.getD 2 Cell.empty))) "RP") = false)
    (hq : HoldingsParser.parseNumber (row.getD 4 Cell.empty) ≤ 0) :
    ∃ h, HoldingsParser.samsungRow row = some h
      ∧ h.isValid = false ∧ h.errors = ["Invalid quantity"] := by
  simp only [HoldingsParser.samsungRow]
  rw [if_neg h1, if_neg h2, if_neg (show ¬_ = true by rw [h3]; decide), if_pos hq]
  exact ⟨_, rfl, rfl, rfl⟩

lemma miraeGeneralRow_kept (row : List Cell)
    (h1 : ¬row.length < 10)
    (h2 : jsTrim (cellStr (row.getD 1 Cell.empty)) ≠ "")
    (hq : HoldingsParser.parseNumber (row.getD 3 Cell.empty) ≤ 0) :
    ∃ h, HoldingsParser.miraeGeneralRow row = some h
      ∧ h.isValid = false ∧ h.errors = ["Invalid quantity"] := by
  simp only [HoldingsParser.miraeGeneralRow]
  rw [if_neg h1, if_neg h2, if_pos hq, if_neg h2]
  exact ⟨_, rfl, rfl, rfl⟩

lemma legacyRow_isSome (c1 c2 c3 c4 c5 c6 c7 : Int) (row : List Cell) :
    (ExcelImport.legacyRow c1 c2 c3 c4 c5 c6 c7 row).isSome = !row.isEmpty := by
  cases row with
  | nil => rfl
  | cons a l => simp [ExcelImport.legacyRow]

lemma parseLegacy_length (data : List (List Cell)) :
    (ExcelImport.parseLegacy data).length
      = ((data.drop 1).filter (fun row => !row.isEmpty)).length := by
  unfold ExcelImport.parseLegacy
  split
  · rename_i h2
    rcases data with _ | ⟨a, _ | ⟨b, t⟩⟩
    · rfl
    · rfl
    · exfalso
      simp only [List.length_cons] at h2
      omega
  · simp only [length_filterMap_isSome]
    congr 1
    apply filter_congr_mem
    intro row _
    exact legacyRow_isSome _ _ _ _ _ _ _ row

/-- C2 (amended): in the transactions parsers (config-driven and legacy)
every non-empty data row yields exactly one record whose `valid` flag is the
emptiness of its recorded validation errors, so rows with row-level problems
are kept with `valid=false`; in the positional holdings parsers a
sufficient-width row with a non-blank (non-cash) security name and
quantity ≤ 0 is kept as a record with `valid=false` and "Invalid quantity"
recorded, but a row with a blank security name is dropped entirely rather
than marked invalid, and `validRowCount` equals the number of returned
records with positive quantity (each of which carries a non-blank name). -/
theorem C2_row_inclusion_amended :
    (∀ row : List Cell, jsTrim (cellStr (row.getD 2 Cell.empty)) = ""
      → HoldingsParser.samsungRow row = none)
    ∧ (∀ row : List Cell, jsTrim (cellStr (row.getD 1 Cell.empty)) = ""
      → HoldingsParser.miraeGeneralRow row = none)
    ∧ (∀ row : List Cell, ¬row.length < 11
      → jsTrim (cellStr (row.getD 2 Cell.empty)) ≠ ""
      → (strIncludes (jsTrim (cellStr (row.getD 2 Cell.empty))) "현금"
          || strIncludes (jsTrim (cellStr (row.getD 2 Cell.empty))) "예수금"
          || strIncludes (jsTrim (cellStr (row.getD 2 Cell.empty))) "RP") = false
      → HoldingsParser.parseNumber (row.getD 4 Cell.empty) ≤ 0
      → ∃ h, HoldingsParser.samsungRow row = some h
          ∧ h.isValid = false ∧ h.errors = ["Invalid quantity"])
    ∧ (∀ row : List Cell, ¬row.length < 10
      → jsTrim (cellStr (row.getD 1 Cell.empty)) ≠ ""
      → HoldingsParser.parseNumber (row.getD 3 Cell.empty) ≤ 0
      → ∃ h, HoldingsParser.miraeGeneralRow row = some h
          ∧ h.isValid = false ∧ h.errors = ["Invalid quantity"])
    ∧ (∀ data : List (List Cell),
        HoldingsParser.parseSamsung data
          = (data.drop 1).filterMap HoldingsParser.samsungRow
        ∧ HoldingsParser.parseMiraeGeneral data
          = (data.drop 1).filterMap HoldingsParser.miraeGeneralRow)
    ∧ (∀ data : List (List Cell), ∀ h ∈ HoldingsParser.parseSamsung data,
        h.isValid = decide (0 < h.quantity) ∧ h.stockName ≠ "")
    ∧ (∀ data : List (List Cell), ∀ h ∈ HoldingsParser.parseMiraeGeneral data,
        h.isValid = decide (0 < h.quantity) ∧ h.stockName ≠ "")
    ∧ (∀ data : List (List Cell),
        (HoldingsParser.parseHoldingsGrid data).validRows
          = ((HoldingsParser.parseHoldingsGrid data).holdings.filter
              (fun h => decide (0 < h.quantity))).length)
    ∧ (∀ (headers : List Cell) (rows : List (List Cell))
        (bt : BrokerageParsers.BrokerageType),
        (∀ r ∈ BrokerageParsers.parseWithBrokerageConfig headers rows bt,
          r.isValid = r.errors.isEmpty)
        ∧ (BrokerageParsers.parseWithBrokerageConfig headers rows bt).length
          = (rows.filter (fun row => !row.isEmpty)).length)
    ∧ (∀ data : List (List Cell), ∀ r ∈ ExcelImport.parseLegacy data,
        r.isValid = r.errors.isEmpty)
    ∧ (∀ data : List (List Cell), (ExcelImport.parseLegacy data).length
        = ((data.drop 1).filter (fun row => !row.isEmpty)).length) := by
  refine ⟨samsungRow_blank, miraeGeneralRow_blank, samsungRow_kept,
    miraeGeneralRow_kept, fun data => ⟨rfl, rfl⟩, parseSamsung_fields,
    parseMiraeGeneral_fields, ?_,
    fun headers rows bt => ⟨pwbc_isValid headers rows bt, pwbc_length headers rows bt⟩,
    parseLegacy_isValid, parseLegacy_length⟩
  intro data
  rcases parseHoldingsGrid_shape data with ⟨msg, hEq, _⟩ | hEq
  · rw [hEq]; rfl
  · rw [hEq]
    dsimp only [HoldingsParser.assembleHoldings]
    congr 1
    apply filter_congr_mem
    intro h hm
    exact (postPass_fields _ (rawHoldings_fields data) h hm).1

/-- C2 witness: the amended blank-name and quantity-kept clauses applied at
concrete rows of full positional width — the blank-name rows produce no
record, while the zero-quantity rows with a non-blank name are kept as
invalid records with the problem recorded. -/
theorem C2_row_inclusion_amended_witness :
    (HoldingsParser.samsungRow (List.replicate 11 (Cell.str "")) = none)
    ∧ (HoldingsParser.miraeGeneralRow (List.replicate 10 (Cell.str "")) = none)
    ∧ (∃ h, HoldingsParser.samsungRow
        [Cell.str "12-34", Cell.str "위탁", Cell.str "삼성전자", Cell.empty, Cell.num 0,
         Cell.num 1, Cell.num 1, Cell.num 1, Cell.num 1, Cell.num 1, Cell.num 1] = some h
        ∧ h.isValid = false ∧ h.errors = ["Invalid quantity"])
    ∧ (∃ h, HoldingsParser.miraeGeneralRow
        [Cell.str "주식", Cell.str "종목", Cell.empty, Cell.num 0, Cell.empty,
         Cell.num 1, Cell.num 1, Cell.num 1, Cell.num 1, Cell.num 1] = some h
        ∧ h.isValid = false ∧ h.errors = ["Invalid quantity"]) :=
  ⟨C2_row_inclusion_amended.1 (List.replicate 11 (Cell.str "")) (by decide),
   C2_row_inclusion_amended.2.1 (List.replicate 10 (Cell.str "")) (by decide),
   C2_row_inclusion_amended.2.2.1
     [Cell.str "12-34", Cell.str "위탁", Cell.str "삼성전자", Cell.empty, Cell.num 0,
      Cell.num 1, Cell.num 1, Cell.num 1, Cell.num 1, Cell.num 1, Cell.num 1]
     (by decide) (by decide) (by decide) (by decide),
   C2_row_inclusion_amended.2.2.2.1
     [Cell.str "주식", Cell.str "종목", Cell.empty, Cell.num 0, Cell.empty,
      Cell.num 1, Cell.num 1, Cell.num 1, Cell.num 1, Cell.num 1]
     (by decide) (by decide) (by decide)⟩

/-- C2 counterexample: a Samsung-format data row of full width (11 cells)
whose security name cell is blank is dropped from the returned records
entirely — the result is the empty list — rather than being included with
`valid=false` and the problem recorded, as the claim requires. -/
theorem C2_blank_name_counterexample :
    HoldingsParser.parseSamsung
      [[Cell.str "header"],
       [Cell.str "12-34", Cell.str "위탁", Cell.str "", Cell.empty, Cell.num 5,
        Cell.num 100, Cell.num 110, Cell.num 550, Cell.num 500, Cell.num 50,
        Cell.num (667 / 10000)]] = [] := by
  decide

/-- C3 counterexample: the holdings amount parser does not recognize
parenthesized negatives — parseNumber("(100)") evaluates to 0, not -100 as
the claim requires of the amount parser. -/
theorem C3_paren_counterexample :
    HoldingsParser.parseNumber (Cell.str "(100)") = 0 ∧ (0 : ℚ) ≠ -100 :=
  ⟨by decide, by norm_num⟩

/-- C3 (amended): the repository has two amount parsers.  The holdings-side
one accepts numbers as-is, strips whitespace, commas and the glyphs ₩ $ % 원,
and returns 0 (never an error) for null/undefined/empty or unparseable text,
but maps "(100)" to 0, not -100.  The transactions-side one strips
whitespace, commas, ₩ $ 원, maps "(100)" to -100, and returns null (not 0)
for null/undefined/empty or unparseable input; its callers coerce null to 0
after recording a validation error. -/
theorem C3_amount_parser_amended :
    (∀ q : ℚ, HoldingsParser.parseNumber (Cell.num q) = q)
    ∧ HoldingsParser.parseNumber Cell.empty = 0
    ∧ HoldingsParser.parseNumber (Cell.str "") = 0
    ∧ HoldingsParser.parseNumber (Cell.str "1,000") = 1000
    ∧ HoldingsParser.parseNumber (Cell.str "₩75,000") = 75000
    ∧ HoldingsParser.parseNumber (Cell.str "50%") = 50
    ∧ HoldingsParser.parseNumber (Cell.str "(100)") = 0
    ∧ HoldingsParser.parseNumber (Cell.str "not a number") = 0
    ∧ (∀ q : ℚ, BrokerageParsers.parseNumber (Cell.num q) = some q)
    ∧ BrokerageParsers.parseNumber Cell.empty = none
    ∧ BrokerageParsers.parseNumber (Cell.str "") = none
    ∧ BrokerageParsers.parseNumber (Cell.str "1,000") = some 1000
    ∧ BrokerageParsers.parseNumber (Cell.str "₩75,000") = some 75000
    ∧ BrokerageParsers.parseNumber (Cell.str "(100)") = some (-100)
    ∧ BrokerageParsers.parseNumber (Cell.str "not a number") = none :=
  ⟨fun q => rfl, by decide, by decide, by decide, by decide, by decide, by decide,
   by decide, fun q => rfl, by decide, by decide, by decide, by decide, by decide,
   by decide⟩

lemma firstMatchIdx_none (p : α → Bool) (l : List α) :
    firstMatchIdx p l = none ↔ ∀ a ∈ l, p a = false := by
  induction l with
  | nil => simp [firstMatchIdx]
  | cons a l ih =>
    cases h : p a <;> simp [firstMatchIdx, h, ih]

lemma firstMatchIdx_some (p : α → Bool) (l : List α) (i : Nat) (d : α)
    (h : firstMatchIdx p l = some i) :
    p (l.getD i d) = true ∧ ∀ j < i, p (l.getD j d) = false := by
  induction l generalizing i with
  | nil => simp [firstMatchIdx] at h
  | cons a l ih =>
    by_cases hp : p a = true
    · simp [firstMatchIdx, hp] at h
      subst h
      exact ⟨by simpa using hp, by omega⟩
    · simp [firstMatchIdx, hp] at h
      obtain ⟨i2, hi2, hsum⟩ := h
      subst hsum
      obtain ⟨h1, h2⟩ := ih i2 hi2
      constructor
      · simpa using h1
      · intro j hj
        cases j with
        | zero => simpa using hp
        | succ j2 =>
          have := h2 j2 (by omega)
          simpa using this

lemma resolveColumns_neg (f : String → Option Nat) (names : List String) :
    resolveColumns f names = -1 ↔ ∀ n ∈ names, f n = none := by
  induction names with
  | nil => simp [resolveColumns]
  | cons n rest ih =>
    cases h : f n with
    | none => simp [resolveColumns, h, ih]
    | some i => simp [resolveColumns, h]

lemma resolveColumns_some (f : String → Option Nat) (names : List String) (i : Nat)
    (h : resolveColumns f names = (i : Int)) : ∃ n ∈ names, f n = some i := by
  induction names with
  | nil => simp [resolveColumns] at h
  | cons n rest ih =>
    cases hf : f n with
    | none =>
      rw [resolveColumns, hf] at h
      obtain ⟨m, hm, hfm⟩ := ih h
      exact ⟨m, by simp [hm], hfm⟩
    | some k =>
      rw [resolveColumns, hf] at h
      have hk : (k : Int) = (i : Int) := by simpa using h
      have : k = i := by exact_mod_cast hk
      subst this
      exact ⟨n, by simp, hf⟩

/-- C4 (amended): the column resolver normalizes header cells and candidates
by lower-casing, trimming and stripping internal whitespace; it scans the
candidates in order and for each one returns the index of the first header
cell whose normalized text equals or contains the candidate (one combined
test per cell — exact equality has no precedence over containment), and
returns -1 exactly when no header cell matches any candidate. -/
theorem C4_column_resolver_amended (headers : List Cell) (names : List String) :
    (BrokerageParsers.findColumnIndex headers names = -1
      ↔ ∀ n ∈ names, ∀ h ∈ headers.map BrokerageParsers.normHeader,
          BrokerageParsers.headerMatches h (BrokerageParsers.normKey n) = false)
    ∧ (∀ i : Nat, BrokerageParsers.findColumnIndex headers names = (i : Int)
      → ∃ n ∈ names,
          BrokerageParsers.headerMatches
            ((headers.map BrokerageParsers.normHeader).getD i none)
            (BrokerageParsers.normKey n) = true
          ∧ ∀ j < i, BrokerageParsers.headerMatches
              ((headers.map BrokerageParsers.normHeader).getD j none)
              (BrokerageParsers.normKey n) = false) := by
  constructor
  · rw [BrokerageParsers.findColumnIndex, resolveColumns_neg]
    constructor
    · intro hall n hn h hh
      have := hall n hn
      rw [firstMatchIdx_none] at this
      exact this h hh
    · intro hall n hn
      rw [firstMatchIdx_none]
      exact fun h hh => hall n hn h hh
  · intro i hi
    rw [BrokerageParsers.findColumnIndex] at hi
    obtain ⟨n, hn, hfn⟩ := resolveColumns_some _ _ i hi
    exact ⟨n, hn, firstMatchIdx_some _ _ i none hfn⟩

/-- C4 witness: the amended positive clause applied at a concrete header row
and candidate list. -/
theorem C4_column_resolver_amended_witness :
    ∃ n ∈ ["price"],
      BrokerageParsers.headerMatches
        (([Cell.str "price2", Cell.str "price"].map BrokerageParsers.normHeader).getD 0 none)
        (BrokerageParsers.normKey n) = true
      ∧ ∀ j < 0, BrokerageParsers.headerMatches
          (([Cell.str "price2", Cell.str "price"].map BrokerageParsers.normHeader).getD j none)
          (BrokerageParsers.normKey n) = false :=
  (C4_column_resolver_amended [Cell.str "price2", Cell.str "price"] ["price"]).2 0 (by decide)

/-- C4 counterexample: with header cells "price2" and "price" and the single
candidate "price", the resolver returns index 0 — the cell that merely
contains the candidate — even though the cell at index 1 equals the
candidate exactly, so exact matching does not take precedence over
containment as the claim states. -/
theorem C4_exact_precedence_counterexample :
    BrokerageParsers.findColumnIndex [Cell.str "price2", Cell.str "price"] ["price"] = 0
    ∧ BrokerageParsers.normHeader (Cell.str "price")
      = some (BrokerageParsers.normKey "price") :=
  ⟨by decide, by decide⟩

/-- C8: every security name whose upper-cased, trimmed form starts with (or
equals) an entry of the fixed Korean-company allow-list is classified as not
foreign with an empty ticker; the allow-list test is the first step of the
classifier, so it fires regardless of any dictionary, ETF-pattern or
bare-ticker match the name would otherwise produce. -/
theorem C8_allowlist_precedence (name : String)
    (hk : ∃ k ∈ HoldingsParser.KOREAN_COMPANIES_ENGLISH_NAME,
      jsStartsWith (jsToUpper (jsTrim name)) k = true ∨ jsToUpper (jsTrim name) = k) :
    HoldingsParser.detectOverseasStock name = (false, "") := by
  simp only [HoldingsParser.detectOverseasStock]
  obtain ⟨k, hkmem, hkcond⟩ := hk
  have hany : HoldingsParser.KOREAN_COMPANIES_ENGLISH_NAME.any
      (fun k => jsStartsWith (jsToUpper (jsTrim name)) k
        || jsToUpper (jsTrim name) == k) = true := by
    rw [List.any_eq_true]
    refine ⟨k, hkmem, ?_⟩
    rcases hkcond with h | h <;> simp [h]
  rw [if_pos hany]

/-- C8 witness: "SAMSUNG Electronics" is suppressed by the allow-list entry
"SAMSUNG" although its Latin script would otherwise match the leading-ticker
pattern. -/
theorem C8_allowlist_precedence_witness :
    HoldingsParser.detectOverseasStock "SAMSUNG Electronics" = (false, "") :=
  C8_allowlist_precedence "SAMSUNG Electronics"
    ⟨"SAMSUNG", by decide, Or.inl (by decide)⟩

/-- C9: the flexible date parser (parseDate of brokerage-parsers.ts)
recognizes, in priority order: a numeric spreadsheet serial converted via the
1899-12-30 epoch (a numeric cell is treated as a serial even when its digits
read as YYYYMMDD), YYYY-MM-DD, 8-digit YYYYMMDD, YYYY/MM/DD and YYYY.MM.DD
with one- or two-digit month/day, and US MM/DD/YYYY — each returning the
canonical YYYY-MM-DD string — and returns null on no match. -/
theorem C9_flexible_date :
    BrokerageParsers.parseDate (Cell.str "2025-01-15") = some "2025-01-15"
    ∧ BrokerageParsers.parseDate (Cell.str "20250115") = some "2025-01-15"
    ∧ BrokerageParsers.parseDate (Cell.str "2025/01/15") = some "2025-01-15"
    ∧ BrokerageParsers.parseDate (Cell.str "2025.1.5") = some "2025-01-05"
    ∧ BrokerageParsers.parseDate (Cell.str "01/15/2025") = some "2025-01-15"
    ∧ BrokerageParsers.parseDate (Cell.str "1/5/2025") = some "2025-01-05"
    ∧ BrokerageParsers.parseDate (Cell.num 45672) = some "2025-01-15"
    ∧ BrokerageParsers.parseDate (Cell.num 20250115) ≠ some "2025-01-15"
    ∧ BrokerageParsers.parseDate (Cell.str "invalid-date") = none
    ∧ BrokerageParsers.parseDate Cell.empty = none :=
  ⟨by decide, by decide, by decide, by decide, by decide, by decide, by decide,
   by decide, by decide, by decide⟩

/-- C10: the zero-unwrap transform of the stock-code normalizer fires on the
genuine 6-digit numeric Korean code "005930" (leading and trailing zero
digit), turning it into "000593" instead of leaving it unchanged; "5930"
pads to "005930", so normalizing an already-normalized code changes it —
the normalizer is not idempotent. -/
theorem C10_zero_unwrap (name : String) :
    HoldingsParser.normalizeStockCode (some "005930") name = "000593"
    ∧ HoldingsParser.normalizeStockCode (some "5930") name = "005930"
    ∧ HoldingsParser.normalizeStockCode
        (some (HoldingsParser.normalizeStockCode (some "5930") name)) name
      ≠ HoldingsParser.normalizeStockCode (some "5930") name := by
  have h005930 : HoldingsParser.normalizeStockCode (some "005930") name = "000593" := by
    unfold HoldingsParser.normalizeStockCode
    rw [if_neg (by simp)]
    decide
  have h5930 : HoldingsParser.normalizeStockCode (some "5930") name = "005930" := by
    unfold HoldingsParser.normalizeStockCode
    rw [if_neg (by simp)]
    decide
  refine ⟨h005930, h5930, ?_⟩
  rw [h5930, h005930]
  decide
